import Mathlib

/-!
Verification development for the AI voice phone-call skills-assessment
repository.  The definitions below are a shallow embedding of the two core
modules:

* `src/functions/src/functions/assessment_processor_simple.py`
  (scoring pipeline: transcription batch, LLM analysis parsing/formatting,
  result assembly, global assessment index update), and
* `src/functions/src/functions/webhook_simple.py`
  (call-flow session state machine: initial webhook, recording completion,
  gather/repeat handling, TwiML generation).

Python dynamic values flowing out of `json.loads` are modelled with the
`JValue` type; Python operations that can raise (attribute access on a
non-dict, `>=` between a string and a number, `format(x, ".1f")` on a
non-number, ...) are modelled in the `Except Unit` monad, and every
`try/except` in the source becomes an explicit `match` on that monad.
External services (S3, Twilio, Transcribe, Bedrock, `json.loads`) are
modelled as oracle arguments: the code under proof is exactly the logic the
repository source performs on the values those services return.
-/

/-- Model of a parsed JSON value (the result of `json.loads`).  Numbers are
modelled as rationals; the float-vs-int distinction of Python is irrelevant
to every comparison the source performs. -/
inductive JValue where
  | null
  | bool (b : Bool)
  | num (q : ℚ)
  | str (s : String)
  | arr (elems : List JValue)
  | obj (fields : List (String × JValue))

/-- Python truthiness of a JSON value (`if analysis_json:` etc.):
`None`, `False`, `0`, `""`, `[]`, `\x7b\x7d` are falsy. -/
def truthy : JValue → Bool
  | .null => false
  | .bool b => b
  | .num q => q != 0
  | .str s => s ≠ ""
  | .arr l => !l.isEmpty
  | .obj l => !l.isEmpty

/-- Python `d.get(k, default)`: raises (`AttributeError`) unless `d` is a
dict, else returns the value at `k` or the default. -/
def jGetD (j : JValue) (k : String) (d : JValue) : Except Unit JValue :=
  match j with
  | .obj fields => .ok ((fields.lookup k).getD d)
  | _ => .error ()

/-- Python `d.items()`: raises unless `d` is a dict. -/
def jItems (j : JValue) : Except Unit (List (String × JValue)) :=
  match j with
  | .obj fields => .ok fields
  | _ => .error ()

/-- Python string-method access (`.lower()`, `.replace(...)`): raises unless
the value is a string. -/
def asStr (j : JValue) : Except Unit String :=
  match j with
  | .str s => .ok s
  | _ => .error ()

/-- Python `x >= bound` for a JSON value against a numeric literal:
defined for numbers and bools (bools are ints in Python), raises
(`TypeError`) for every other type. -/
def pyGE (j : JValue) (bound : ℚ) : Except Unit Bool :=
  match j with
  | .num q => .ok (decide (bound ≤ q))
  | .bool b => .ok (decide (bound ≤ (if b then (1 : ℚ) else 0)))
  | _ => .error ()

/-- Rendering of a rational with one decimal digit, used to model
`f"\x7bx:.1f\x7d"`.  The exact rounding of Python float formatting is
abstracted (no claim depends on the digits); what matters is on which
inputs the format raises, which `pyFormat1f` captures. -/
def format1f (q : ℚ) : String :=
  let n : Int := (q * 10 + 1 / 2).floor
  toString (Int.fdiv n 10) ++ "." ++ toString (Int.fmod n 10).natAbs

/-- Rendering of a rational with no decimal digit (`f"\x7bx:.0f\x7d"`). -/
def format0f (q : ℚ) : String :=
  toString ((q + 1 / 2).floor)

/-- Python `format(x, ".1f")`: succeeds on numbers and bools, raises
(`TypeError`/`ValueError`) on strings, `None`, lists and dicts. -/
def pyFormat1f (j : JValue) : Except Unit String :=
  match j with
  | .num q => .ok (format1f q)
  | .bool b => .ok (format1f (if b then 1 else 0))
  | _ => .error ()

/-- Python `format(x, ".0f")`. -/
def pyFormat0f (j : JValue) : Except Unit String :=
  match j with
  | .num q => .ok (format0f q)
  | .bool b => .ok (format0f (if b then 1 else 0))
  | _ => .error ()

/-- Python `str(x)` inside an f-string: total.  The rendering of floats,
lists and dicts is abstracted (no claim inspects those strings). -/
def pyStr : JValue → String
  | .null => "None"
  | .bool b => if b then "True" else "False"
  | .num q => if q.den = 1 then toString q.num else toString q
  | .str s => s
  | .arr _ => "[...]"
  | .obj _ => "\x7b...\x7d"

/-- Helper for `pyTitle`: walks the characters tracking whether the
previous character was alphabetic. -/
def pyTitleAux : List Char → Bool → List Char
  | [], _ => []
  | c :: cs, prevAlpha =>
    (if c.isAlpha then (if prevAlpha then c.toLower else c.toUpper) else c)
      :: pyTitleAux cs c.isAlpha

/-- Python `s.title()`: capitalise the first letter of each alphabetic run,
lowercase the rest. -/
def pyTitle (s : String) : String := ⟨pyTitleAux s.toList false⟩

/-- Python dict assignment `d[k] = v` on an association list: replaces the
value in place when the key is present, appends otherwise. -/
def dictInsert (l : List (String × α)) (k : String) (v : α) : List (String × α) :=
  if l.any (fun p => p.1 = k) then
    l.map (fun p => if p.1 = k then (k, v) else p)
  else
    l ++ [(k, v)]

/-- Lexicographic code-point comparison of character lists, the order
Python uses to compare strings. -/
def charListLe : List Char → List Char → Bool
  | [], _ => true
  | _ :: _, [] => false
  | c :: cs, d :: ds => if c < d then true else if d < c then false else charListLe cs ds

/-- Python `a <= b` on strings (code-point lexicographic). -/
def pyStrLe (a b : String) : Bool := charListLe a.data b.data

/-- Python `s.lower()` (ASCII case folding suffices for the values the
source lowercases: PASS / REVIEW / FAIL). -/
def pyLower (s : String) : String := ⟨s.data.map Char.toLower⟩

/-- Helper of `pySplit`: accumulates the current field (reversed). -/
def splitCharAux (sep : Char) : List Char → List Char → List String
  | [], acc => [⟨acc.reverse⟩]
  | c :: cs, acc =>
    if c = sep then (⟨acc.reverse⟩ : String) :: splitCharAux sep cs []
    else splitCharAux sep cs (c :: acc)

/-- Python `s.split(sep)` for a one-character separator (the only form the
source uses: `assessment_id.split('_')`). -/
def pySplit (sep : Char) (s : String) : List String := splitCharAux sep s.data []

/-- Python `sep.join(parts)`. -/
def pyJoin (sep : String) : List String → String
  | [] => ""
  | [x] => x
  | x :: xs => x ++ sep ++ pyJoin sep xs

/-- Python `s.replace(old, new)` for one-character arguments (the only
form the source uses: `replace('_', ' ')`). -/
def pyReplaceChar (old new : Char) (s : String) : String :=
  ⟨s.data.map (fun c => if c = old then new else c)⟩

/-- Python `int(s) if s.isdigit() else 0` (source line 493). -/
def pyParseIntOr0 (s : String) : Nat :=
  if s.data ≠ [] ∧ s.data.all Char.isDigit then
    s.data.foldl (fun n c => n * 10 + (c.toNat - 48)) 0
  else 0

/-! ### Assessment templates (processor module)

The `ASSESSMENT_TEMPLATES` constant of `assessment_processor_simple.py`,
restricted to the part `format_analysis_for_humans` reads: the
`scoring_categories` of each role, in source (dict insertion) order. -/

/-- One entry of a `scoring_categories` dict of `ASSESSMENT_TEMPLATES`. -/
structure ScoringCategory where
  name : String
  questions : List String
  description : String

/-- Python `ASSESSMENT_TEMPLATES.get(skill_type, \x7b\x7d).get('scoring_categories', \x7b\x7d)`
from `assessment_processor_simple.py`: the ordered category list of each
role, empty for an unknown role. -/
def scoring_categories (skill_type : String) : List (String × ScoringCategory) :=
  if skill_type = "banquet_server" then
    [("baseline",
      { name := "Baseline Criteria",
        questions := ["english_greeting", "english_complaint"],
        description := "Basic English customer service ability and polite, helpful tone" }),
     ("experience",
      { name := "Experience & Responsibilities",
        questions := ["experience_1", "experience_2", "experience_3"],
        description := "Credibility check for relevant work experience and responsibilities" }),
     ("knowledge",
      { name := "Knowledge Checks",
        questions := ["knowledge_setup", "knowledge_wine", "knowledge_clearing", "knowledge_scenario"],
        description := "Technical knowledge of banquet service procedures" })]
  else if skill_type = "bartender" then
    [("baseline",
      { name := "Baseline Criteria",
        questions := ["knowledge_service"],
        description := "English fluency and responsible alcohol service judgment" }),
     ("experience",
      { name := "Experience & Responsibilities",
        questions := ["experience_1", "experience_2", "experience_3"],
        description := "Credibility check for relevant bartending experience and responsibilities" }),
     ("knowledge",
      { name := "Knowledge Checks",
        questions := ["knowledge_glassware_1", "knowledge_glassware_2", "knowledge_margarita", "knowledge_old_fashioned", "knowledge_tools"],
        description := "Technical knowledge of bartending skills, glassware, recipes, and tools" })]
  else if skill_type = "host" then
    [("baseline",
      { name := "Baseline Criteria",
        questions := ["knowledge_phone", "knowledge_reservation"],
        description := "English fluency and professional customer service demonstrated through phone etiquette and guest interaction" }),
     ("experience",
      { name := "Experience & Responsibilities",
        questions := ["experience_1", "experience_2", "experience_3"],
        description := "Credibility check for relevant host experience and responsibilities" }),
     ("knowledge",
      { name := "Knowledge Checks",
        questions := ["knowledge_pos", "knowledge_seating", "knowledge_walkin"],
        description := "Technical knowledge of host duties, POS systems, and guest management" })]
  else []

/-! ### format_analysis_for_humans -/

/-- Body of `format_analysis_for_humans` (everything inside its `try`),
translated statement by statement from
`assessment_processor_simple.py` lines 614-663.  Any `.error` corresponds
to a raised Python exception, caught by the `except` of the function. -/
def formatBody (analysis_json : JValue) (skill_type : String) : Except Unit JValue := do
  let oa ← jGetD analysis_json "overall_assessment" (.obj [])
  let recVal ← jGetD oa "recommendation" (.str "REVIEW")
  let reasonVal ← jGetD oa "reasoning" (.str "Analysis completed")
  let cat70 ← jGetD oa "categories_above_70_percent" (.num 0)
  let summaryVal ← jGetD analysis_json "summary" (.obj [])
  let category_scores ← jGetD analysis_json "category_scores" (.obj [])
  let breakdown ← (scoring_categories skill_type).mapM (fun ci => do
    let category_data ← jGetD category_scores ci.1 (.obj [])
    let avg ← jGetD category_data "average_score" (.num 0)
    let avgStr ← pyFormat1f avg
    let pct ← jGetD category_data "percentage" (.num 0)
    let pctStr ← pyFormat0f pct
    let pctPass ← pyGE pct 70
    let qsIncluded ← jGetD category_data "questions" (.arr [])
    pure (ci.2.name, JValue.obj
      [("average_score", .str (avgStr ++ "/10")),
       ("percentage", .str (pctStr ++ "%")),
       ("status", .str (if pctPass then "✅ PASS" else "❌ BELOW 70%")),
       ("questions_included", qsIncluded)]))
  let question_scores ← jGetD analysis_json "question_scores" (.obj [])
  let qsItems ← jItems question_scores
  let details ← qsItems.mapM (fun qp => do
    let score ← jGetD qp.2 "score" (.num 0)
    let level ← jGetD qp.2 "level" (.str "unknown")
    let reasoning ← jGetD qp.2 "reasoning" (.str "No reasoning provided")
    let ge8 ← pyGE score 8
    let ge6 ← pyGE score 6
    let score_emoji := if ge8 then "🟢" else if ge6 then "🟡" else "🔴"
    let levelStr ← asStr level
    let level_formatted := pyTitle (pyReplaceChar '_' ' ' levelStr)
    pure (qp.1, JValue.obj
      [("score", .str (pyStr score ++ "/10")),
       ("level", .str (score_emoji ++ " " ++ level_formatted)),
       ("reasoning", reasoning)]))
  pure (JValue.obj
    [("overall_assessment", .obj
       [("recommendation", recVal),
        ("reasoning", reasonVal),
        ("categories_above_70_percent", cat70)]),
     ("category_breakdown", .obj breakdown),
     ("question_details", .obj details),
     ("summary", summaryVal)])

/-- `format_analysis_for_humans`: on any internal exception the original
`analysis_json` is returned unchanged (source lines 665-668). -/
def format_analysis_for_humans (analysis_json : JValue) (skill_type : String) : JValue :=
  match formatBody analysis_json skill_type with
  | .ok v => v
  | .error _ => analysis_json

/-! ### analyze_with_llm_simple -/

/-- Result of `analyze_with_llm_simple`: either
`\x7b'success': True, 'analysis': ...\x7d` or
`\x7b'success': False, 'error': ...\x7d`. -/
inductive AnalyzeOutcome where
  | success (analysis : JValue)
  | failure (error : String)

/-- Degraded analysis returned when JSON parsing of the model output fails
(source lines 729-738). -/
def degradedAnalysis (analysis_text : String) : JValue :=
  .obj [("overall_recommendation", .str "REVIEW"),
        ("overall_reasoning", .str "Analysis completed but response format needs review"),
        ("raw_analysis", .str analysis_text)]

/-- `analyze_with_llm_simple` (source lines 670-745).  The Bedrock call is
modelled as an oracle `bedrock` (`.error e` = the call raised, caught by
the outer `except`); the two-stage JSON parse (`json.loads` directly, then
extraction from a markdown code block) is modelled as an oracle
`parse : String → Option JValue` giving the parsed value, `none` when both
attempts fail.  Prompt construction only feeds the oracle and is omitted. -/
def analyze_with_llm_simple (bedrock : Except String String)
    (parse : String → Option JValue) (skill_type : String) : AnalyzeOutcome :=
  match bedrock with
  | .error e => .failure e
  | .ok analysis_text =>
    match parse analysis_text with
    | some analysis_json =>
      if truthy analysis_json then
        .success (format_analysis_for_humans analysis_json skill_type)
      else
        .success (degradedAnalysis analysis_text)
    | none => .success (degradedAnalysis analysis_text)

/-! ### transcribe_recordings_simple -/

/-- Outcome of transcribing one recording, as seen by the loop body of
`transcribe_recordings_simple` (source lines 499-555):
`ok t` = `wait_for_transcription_simple` returned transcript `t`;
`failedJob` = it returned `None` (job failed or timed out);
`exn` = some step (download, upload, job submission, polling) raised. -/
inductive TranscribeOutcome where
  | ok (t : String)
  | failedJob
  | exn

/-- `transcribe_recordings_simple` (source lines 495-557): iterate over the
responses in order; entries without a `recording_url` are skipped; a raised
exception stores the sentinel `"[TRANSCRIPTION_ERROR]"`, a failed or
falsy (empty) transcript stores `"[TRANSCRIPTION_FAILED]"`, and the loop
always continues with the next question.  `responses` maps each question
key to its optional `recording_url`; `outcome` is the oracle for the
external transcription of each question. -/
def transcribe_recordings_simple (responses : List (String × Option String))
    (outcome : String → TranscribeOutcome) : List (String × String) :=
  responses.foldl (fun transcripts qp =>
    match qp.2 with
    | none => transcripts
    | some _ =>
      match outcome qp.1 with
      | .exn => dictInsert transcripts qp.1 "[TRANSCRIPTION_ERROR]"
      | .failedJob => dictInsert transcripts qp.1 "[TRANSCRIPTION_FAILED]"
      | .ok t =>
        if t ≠ "" then dictInsert transcripts qp.1 t
        else dictInsert transcripts qp.1 "[TRANSCRIPTION_FAILED]") []

/-- Value stored for a question by `transcribe_recordings_simple` as a
function of its transcription outcome. -/
def transcriptValue : TranscribeOutcome → String
  | .exn => "[TRANSCRIPTION_ERROR]"
  | .failedJob => "[TRANSCRIPTION_FAILED]"
  | .ok t => if t ≠ "" then t else "[TRANSCRIPTION_FAILED]"

/-! ### Global assessment index -/

/-- One entry of `assessments_index.json`
(built at source lines 979-987). -/
structure IndexEntry where
  id : String
  role : String
  date : String
  time : String
  status : String
  analyzed_at : String
  file_path : String

/-- The `assessments_index.json` document. -/
structure AssessmentIndex where
  assessments : List IndexEntry
  last_updated : Option String
  total_count : Nat

/-- Fresh empty index (source lines 943-947 and 950-954). -/
def emptyIndex : AssessmentIndex :=
  { assessments := [], last_updated := none, total_count := 0 }

/-- Outcome of an S3 `get_object`, as distinguished by the source:
success, a `NoSuchKey` error, or any other raised error. -/
inductive S3Result (α : Type) where
  | ok (a : α)
  | noSuchKey
  | err

/-- Descending stable sort by `analyzed_at`
(`existing_index["assessments"].sort(key=..., reverse=True)`,
source lines 1003-1006).  Insertion sort is stable, like Python sort, so
the results agree. -/
def sortByAnalyzedAtDesc (l : List IndexEntry) : List IndexEntry :=
  l.insertionSort (fun a b => pyStrLe b.analyzed_at a.analyzed_at = true)

/-- Status chain of the index entry (source lines 969-976): first truthy
value among `llm_analysis.overall_assessment.recommendation`,
`llm_analysis.overall_recommendation` and `recommendation`, lowercased
(raising when the truthy value is not a string), else `"unknown"`. -/
def indexStatus (la rec1 results : JValue) : Except Unit String :=
  if truthy rec1 then do
    let s ← asStr rec1
    pure (pyLower s)
  else do
    let rec2 ← jGetD la "overall_recommendation" .null
    if truthy rec2 then do
      let s ← asStr rec2
      pure (pyLower s)
    else do
      let rec3 ← jGetD results "recommendation" .null
      if truthy rec3 then do
        let s ← asStr rec3
        pure (pyLower s)
      else pure "unknown"

/-- Body of `update_global_assessment_index` after the existing index has
been fetched (source lines 956-1014), translated statement by statement.
`.error` corresponds to a raised Python exception (e.g. `.lower()` on a
non-string recommendation), caught by the `except` of the function so that
an index failure never propagates.  `results` is the result dict assembled
by `process_assessment_simple`, modelled as a `JValue`; `now` stands for
`datetime.utcnow().isoformat()`. -/
def updateIndexCore (existing : AssessmentIndex) (assessment_id : String)
    (results : JValue) (now : String) : Except Unit AssessmentIndex := do
  let parts := pySplit '_' assessment_id
  let role := if parts.length ≥ 4 then pyJoin "_" (parts.take (parts.length - 3))
    else parts.getD 0 "unknown"
  let date := if parts.length ≥ 4 then (parts.getD (parts.length - 3) "")
    else parts.getD 1 "unknown"
  let time := if parts.length ≥ 4 then (parts.getD (parts.length - 2) "")
    else parts.getD 2 "unknown"
  let la ← jGetD results "llm_analysis" (.obj [])
  let oa ← jGetD la "overall_assessment" (.obj [])
  let rec1 ← jGetD oa "recommendation" .null
  let status ← indexStatus la rec1 results
  let analyzedAtVal ← jGetD results "analyzed_at" (.str now)
  let analyzed_at ← asStr analyzedAtVal
  let assessment_entry : IndexEntry :=
    { id := assessment_id,
      role := pyReplaceChar '_' ' ' role,
      date := date,
      time := time,
      status := status,
      analyzed_at := analyzed_at,
      file_path := "assessments/" ++ assessment_id ++ "/analysis_results.json" }
  let kept := existing.assessments.filter (fun a => a.id ≠ assessment_id)
  let appended := kept ++ [assessment_entry]
  pure { assessments := sortByAnalyzedAtDesc appended,
         last_updated := some now,
         total_count := appended.length }

/-- `update_global_assessment_index` (source lines 932-1022) as the total
function the caller observes: a failed read of the existing index falls
back to a fresh empty index (both branches, `NoSuchKey` and any other
error); a raised body or a failed final `put_object` is swallowed by the
outer `except` and leaves the stored index unchanged (`none`).  The
function never propagates an error. -/
def update_global_assessment_index (readRes : S3Result AssessmentIndex)
    (writeFails : Bool) (assessment_id : String) (results : JValue)
    (now : String) : Option AssessmentIndex :=
  let existing := match readRes with
    | .ok i => i
    | .noSuchKey => emptyIndex
    | .err => emptyIndex
  match updateIndexCore existing assessment_id results now with
  | .ok idx => if writeFails then none else some idx
  | .error _ => none

/-! ### process_assessment_simple -/

/-- Observable outcome of `process_assessment_simple`: the success dict
with its top-level `recommendation` and `llm_analysis` fields, or the
failure dict with its `error` field. -/
inductive ProcessOutcome where
  | ok (recommendation : JValue) (llm_analysis : JValue)
  | failed (error : String)

/-- `process_assessment_simple` (source lines 403-482).  Oracles:
`credsOk` = both Twilio environment variables are set; `state` = the
`responses` map of the loaded session state (`none` = no state found, an
entry maps a question key to its optional `recording_url`); `outcome` =
per-question transcription oracle; `bedrock`, `parse` as in
`analyze_with_llm_simple`.  The index-update arguments `idxReadRes` and
`idxWriteFails` feed `save_results_simple`, whose failures the source
swallows, so they cannot influence the returned value.  The final
`.get('overall_recommendation', 'REVIEW')` raises when `llm_analysis` is
not a dict; that exception is caught by the outer `except`, producing the
failure dict. -/
def process_assessment_simple (credsOk : Bool)
    (state : Option (List (String × Option String)))
    (outcome : String → TranscribeOutcome)
    (bedrock : Except String String) (parse : String → Option JValue)
    (skill_type : String)
    (idxReadRes : S3Result AssessmentIndex) (idxWriteFails : Bool) :
    ProcessOutcome :=
  if !credsOk then .failed "Twilio credentials not found in environment variables"
  else
    match state with
    | none => .failed "No assessment data found"
    | some responses =>
      if responses.isEmpty then .failed "No assessment data found"
      else
        let transcripts := transcribe_recordings_simple responses outcome
        if transcripts.isEmpty then .failed "No transcripts generated"
        else
          match analyze_with_llm_simple bedrock parse skill_type with
          | .failure e => .failed ("LLM analysis failed: " ++ e)
          | .success analysis =>
            match jGetD analysis "overall_recommendation" (.str "REVIEW") with
            | .ok r => .ok r analysis
            | .error _ => .failed "dict attribute error while assembling result"

/-! ### The recommendation rule as the specification states it

This definition follows the words of the specification (section 4.3 / 8),
not the source, and exists only to be compared against the behaviour of
the source: `PASS` iff every category is at or above 70, `FAIL` iff at
most one is, `REVIEW` otherwise. -/

/-- Spec-side rule: the overall recommendation as a pure function of the
category percentage triple. -/
def specRecommendation (a b c : ℚ) : String :=
  let hits := (if a ≥ 70 then 1 else 0) + (if b ≥ 70 then 1 else 0) +
    (if c ≥ 70 then (1 : Nat) else 0)
  if hits = 3 then "PASS" else if hits ≤ 1 then "FAIL" else "REVIEW"

/-- Extraction of the overall recommendation recorded in a (formatted or
raw) analysis object: the value under `overall_assessment` /
`recommendation`, the field the dashboard index reads first
(source lines 971-972). -/
def overallRecOf (analysis : JValue) : Option JValue :=
  match analysis with
  | .obj fields =>
    match fields.lookup "overall_assessment" with
    | some (.obj oa) => oa.lookup "recommendation"
    | _ => none
  | _ => none

/-! ## Call-flow state machine (`webhook_simple.py`)

One session document per assessment; the store is the single
`assessments/\x7bid\x7d/state.json` object, `none` when it does not exist.
`WebhookEnv.now` stands for `datetime.utcnow().isoformat()` during one
invocation; `WebhookEnv.stateReadErr` makes every S3 `get_object` of the
invocation raise an error other than `NoSuchKey` (`save_assessment_state`
swallows its own errors in the source and is modelled as a plain store
update). -/

/-- HTTP response dict returned by the Lambda handlers. -/
structure HttpResponse where
  statusCode : Nat
  contentType : String
  body : String

/-- One saved answer: `\x7b'recording_url': ..., 'timestamp': ...\x7d`
(source lines 532-535). -/
structure ResponseEntry where
  recording_url : String
  timestamp : String
deriving DecidableEq

/-- The session state document (source lines 100-108). -/
structure SessionState where
  assessment_id : String
  skill_type : String
  questions_sequence : List String
  current_question_index : Nat
  responses : List (String × ResponseEntry)
  status : String
  created_at : String
  completed_at : Option String
deriving DecidableEq

/-- Environment of one webhook invocation. -/
structure WebhookEnv where
  now : String
  stateReadErr : Bool

/-- Python `skill_type in ASSESSMENT_TEMPLATES` for the webhook module
(the inline templates of `load_assessment_templates`, the fallback actually
used since no `assessment_templates.json` ships with the function). -/
def templateExistsW (skill_type : String) : Bool :=
  skill_type = "bartender" || skill_type = "banquet_server" || skill_type = "host"

/-- `ASSESSMENT_TEMPLATES.get(skill_type, \x7b\x7d).get('questions_sequence',
['intro', 'experience_1', 'goodbye'])` (source line 99 with the inline
templates of lines 58-80). -/
def templateQuestionsSequence (skill_type : String) : List String :=
  if skill_type = "bartender" then
    ["intro", "experience_1", "experience_2", "experience_3",
     "knowledge_glassware_1", "knowledge_glassware_2", "knowledge_margarita", "knowledge_old_fashioned",
     "knowledge_tools", "knowledge_service", "goodbye"]
  else if skill_type = "banquet_server" then
    ["intro", "experience_1", "experience_2", "experience_3",
     "knowledge_setup", "knowledge_wine", "knowledge_clearing", "knowledge_scenario",
     "english_greeting", "english_complaint", "goodbye"]
  else if skill_type = "host" then
    ["intro", "experience_1", "experience_2", "experience_3",
     "knowledge_pos", "knowledge_seating", "knowledge_phone",
     "knowledge_reservation", "knowledge_walkin", "goodbye"]
  else ["intro", "experience_1", "goodbye"]

/-- Initial session state created on first contact (source lines 99-108). -/
def initialState (env : WebhookEnv) (assessment_id skill_type : String) : SessionState :=
  { assessment_id := assessment_id,
    skill_type := skill_type,
    questions_sequence := templateQuestionsSequence skill_type,
    current_question_index := 0,
    responses := [],
    status := "in_progress",
    created_at := env.now,
    completed_at := none }

/-- `get_assessment_state` (source lines 85-110): returns the stored state;
on `NoSuchKey` initialises and saves a fresh state; any other S3 error is
raised (`.error`, caught by the calling handler).  Returns the state
together with the store after the call. -/
def get_assessment_state (env : WebhookEnv) (store : Option SessionState)
    (assessment_id skill_type : String) :
    Except Unit (SessionState × Option SessionState) :=
  if env.stateReadErr then .error ()
  else
    match store with
    | some s => .ok (s, some s)
    | none =>
      let s := initialState env assessment_id skill_type
      .ok (s, some s)

/-- `get_current_question` (source lines 133-140):
`questions_sequence[current_question_index]` when in range, `None` past
the end. -/
def get_current_question (state : SessionState) : Option String :=
  state.questions_sequence.get? state.current_question_index

/-- `advance_to_next_question` (source lines 142-145). -/
def advance_to_next_question (state : SessionState) : SessionState :=
  { state with current_question_index := state.current_question_index + 1 }

/-! ### TwiML text -/

/-- Deployment configuration `TWILIO_WEBHOOK_URL`; its value is irrelevant
to every claim. -/
def TWILIO_WEBHOOK_URL : String := "https://webhook.invalid"

/-- Common first line and opening tag of every TwiML document the module
emits. -/
def xmlDecl : String := "<?xml version=\"1.0\" encoding=\"UTF-8\"?>\n<Response>"

/-- Wraps TwiML verbs in the fixed document frame.  Every TwiML string the
source builds has exactly this shape. -/
def twimlWrap (inner : String) : String := xmlDecl ++ inner ++ "\n</Response>"

/-- Audio asset URL (source lines 330, 339, 418, 439, 453, 558). -/
def audioUrl (skill_type question_key : String) : String :=
  "https://innovativesol-gravywork-assets-dev.s3.us-east-1.amazonaws.com/audio/"
    ++ skill_type ++ "/" ++ question_key ++ ".mp3"

/-- Instructions audio URL (source lines 341, 420, 514). -/
def instructionsUrl : String :=
  "https://innovativesol-gravywork-assets-dev.s3.us-east-1.amazonaws.com/audio/instructions.mp3"

/-- Recording-callback action URL, with the optional `&amp;timeout=true`
marker used by the intro and repeat double-record blocks. -/
def recordAction (assessment_id skill_type question : String) (timeoutFlag : Bool) : String :=
  TWILIO_WEBHOOK_URL ++ "/webhook/recording?assessment_id=" ++ assessment_id
    ++ "&amp;skill_type=" ++ skill_type ++ "&amp;question=" ++ question
    ++ (if timeoutFlag then "&amp;timeout=true" else "")

/-- Short (5 second) `<Record>` element. -/
def recordShort (finishKeys action : String) : String :=
  "<Record timeout=\"5\" transcribe=\"false\" maxLength=\"120\" finishOnKey=\""
    ++ finishKeys ++ "\" action=\"" ++ action ++ "\" method=\"POST\"/>"

/-- Long (120 second) `<Record>` element. -/
def recordLong (action : String) : String :=
  "<Record timeout=\"120\" transcribe=\"false\" maxLength=\"120\" finishOnKey=\"#*\" action=\""
    ++ action ++ "\" method=\"POST\"/>"

/-- Trailing no-answer apology and hangup shared by the question TwiML
blocks. -/
def noAnswerTail : String :=
  "<Say voice=\"Polly.Joanna\">I didn\x27t receive your response. Please try again.</Say>\n    <Hangup/>"

/-- Intro TwiML (source lines 343-353): play intro, play first real
question, short record with timeout marker, instructions, long record. -/
def introBody (assessment_id skill_type next_question : String) : String :=
  twimlWrap ("\n    <Play>" ++ audioUrl skill_type "intro" ++ "</Play>\n    <Pause length=\"1\"/>\n    <Play>"
    ++ audioUrl skill_type next_question ++ "</Play>\n    "
    ++ recordShort "#*" (recordAction assessment_id skill_type next_question true)
    ++ "\n    <Play>" ++ instructionsUrl ++ "</Play>\n    "
    ++ recordLong (recordAction assessment_id skill_type next_question false)
    ++ "\n    " ++ noAnswerTail)

/-- Regular question TwiML (source lines 363-369). -/
def regularBody (assessment_id skill_type question_key : String) : String :=
  twimlWrap ("\n    <Play>" ++ audioUrl skill_type question_key ++ "</Play>\n    "
    ++ recordShort "#*" (recordAction assessment_id skill_type question_key false)
    ++ "\n    " ++ noAnswerTail)

/-- Fallback TwiML for an unknown skill type (source lines 373-381). -/
def fallbackBody (assessment_id skill_type : String) : String :=
  twimlWrap ("\n    <Say voice=\"Polly.Joanna\">Hello! Welcome to the GravyWork skills assessment.</Say>\n    <Pause length=\"1\"/>\n    <Say voice=\"Polly.Joanna\">Please describe your experience. When you are finished speaking, press the pound key.</Say>\n    "
    ++ recordShort "#" (recordAction assessment_id skill_type "fallback" false)
    ++ "\n    " ++ noAnswerTail)

/-- Repeat-question TwiML returned by the gather handler on `*`
(source lines 422-430). -/
def repeatBody (assessment_id skill_type current_question : String) : String :=
  twimlWrap ("\n    <Play>" ++ audioUrl skill_type current_question ++ "</Play>\n    "
    ++ recordShort "#*" (recordAction assessment_id skill_type current_question true)
    ++ "\n    <Play>" ++ instructionsUrl ++ "</Play>\n    "
    ++ recordLong (recordAction assessment_id skill_type current_question false)
    ++ "\n    " ++ noAnswerTail)

/-- Continue-to-recording TwiML of the gather handler (identical text at
source lines 440-445 and 454-459). -/
def gatherContinueBody (assessment_id skill_type current_question : String) : String :=
  twimlWrap ("\n    "
    ++ recordShort "#" (recordAction assessment_id skill_type current_question false)
    ++ "\n    " ++ noAnswerTail)

/-- Silent-timeout TwiML (source lines 516-522): play instructions, re-open
a 120-second recording window for the same question. -/
def timeoutBody (assessment_id skill_type current_question : String) : String :=
  twimlWrap ("\n    <Play>" ++ instructionsUrl ++ "</Play>\n    "
    ++ recordLong (recordAction assessment_id skill_type current_question false)
    ++ "\n    " ++ noAnswerTail)

/-- Completion TwiML, template role (source lines 559-563). -/
def goodbyeBody (skill_type : String) : String :=
  twimlWrap ("\n    <Play>" ++ audioUrl skill_type "goodbye" ++ "</Play>\n    <Hangup/>")

/-- Completion TwiML, unknown role (source lines 565-569). -/
def completionFallbackBody : String :=
  twimlWrap "\n    <Say voice=\"Polly.Joanna\">Thank you for completing the assessment. We will contact you soon.</Say>\n    <Hangup/>"

/-- `create_twiml_response` (source lines 644-656). -/
def create_twiml_response (message : String) (hangup : Bool) : HttpResponse :=
  { statusCode := 200,
    contentType := "text/xml",
    body := twimlWrap ("\n    <Say voice=\"alice\">" ++ message ++ "</Say>\n    "
      ++ (if hangup then "<Hangup/>" else "")) }

/-- Shared shape of the `\x7b'statusCode': 200, 'Content-Type':
'application/xml', 'body': twiml\x7d` returns. -/
def xmlResponse (body : String) : HttpResponse :=
  { statusCode := 200, contentType := "application/xml", body := body }

/-! ### Handlers -/

/-- `generate_completion_twiml` (source lines 554-606): build the goodbye
TwiML, then (inner `try`) re-fetch the state, mark it completed, save, and
trigger the async analysis; every failure of that inner block is swallowed
and the TwiML is returned regardless. -/
def generate_completion_twiml (env : WebhookEnv) (store : Option SessionState)
    (assessment_id skill_type : String) : Option SessionState × HttpResponse :=
  let body := if templateExistsW skill_type then goodbyeBody skill_type
    else completionFallbackBody
  let storeAfter :=
    if env.stateReadErr then store
    else
      let s := match store with
        | some s => s
        | none => initialState env assessment_id skill_type
      some { s with status := "completed", completed_at := some env.now }
  (storeAfter, xmlResponse body)

/-- `generate_question_twiml` (source lines 322-387).  `question_key` is
`none` or `""` when the sequence is exhausted (Python `if not
question_key`); the intro branch advances and saves the state before
emitting the double-record block. -/
def generate_question_twiml (env : WebhookEnv) (store : Option SessionState)
    (assessment_id skill_type : String) (question_key : Option String)
    (state : SessionState) : Option SessionState × HttpResponse :=
  match question_key with
  | none => generate_completion_twiml env store assessment_id skill_type
  | some q =>
    if q = "" then generate_completion_twiml env store assessment_id skill_type
    else if templateExistsW skill_type then
      if q = "intro" then
        let next_state := advance_to_next_question state
        let store1 := some next_state
        match get_current_question next_state with
        | some nq =>
          if nq = "" then generate_completion_twiml env store1 assessment_id skill_type
          else (store1, xmlResponse (introBody assessment_id skill_type nq))
        | none => generate_completion_twiml env store1 assessment_id skill_type
      else if q = "goodbye" then
        generate_completion_twiml env store assessment_id skill_type
      else (store, xmlResponse (regularBody assessment_id skill_type q))
    else (store, xmlResponse (fallbackBody assessment_id skill_type))

/-- `handle_initial_webhook` (source lines 296-320): missing assessment id
degrades to a spoken apology; a raised state fetch is caught by the
handler `except` and degrades likewise. -/
def handle_initial_webhook (env : WebhookEnv) (store : Option SessionState)
    (assessment_id skill_type : String) : Option SessionState × HttpResponse :=
  if assessment_id = "" then
    (store, create_twiml_response "Assessment ID missing. Please contact support." true)
  else
    match get_assessment_state env store assessment_id skill_type with
    | .error _ =>
      (store, create_twiml_response "Sorry, there was an error. Please try again later." true)
    | .ok (state, store1) =>
      generate_question_twiml env store1 assessment_id skill_type
        (get_current_question state) state

/-- Parameters of one `/webhook/gather` callback: query parameters,
optional raw POST body, the parsed `Digits` value, and whether decoding
the body raised (`base64`/form parsing), which the handler `except` turns
into a spoken nudge. -/
structure GatherParams where
  assessment_id : String
  skill_type : String
  question : String
  rawBody : Option String
  digits : String
  parseErr : Bool

/-- `handle_gather_response` (source lines 389-468): never touches the
session store; `*` replays the current question, anything else (or an
empty body) falls through to a fresh recording window. -/
def handle_gather_response (store : Option SessionState) (p : GatherParams) :
    Option SessionState × HttpResponse :=
  if p.parseErr then
    (store, create_twiml_response "Please continue with your answer." false)
  else
    match p.rawBody with
    | some b =>
      if b ≠ "" then
        if p.digits = "*" then
          (store, xmlResponse (repeatBody p.assessment_id p.skill_type p.question))
        else
          (store, xmlResponse (gatherContinueBody p.assessment_id p.skill_type p.question))
      else
        (store, xmlResponse (gatherContinueBody p.assessment_id p.skill_type p.question))
    | none =>
      (store, xmlResponse (gatherContinueBody p.assessment_id p.skill_type p.question))

/-- Parameters of one `/webhook/recording` callback. -/
structure RecordingParams where
  assessment_id : String
  skill_type : String
  question : String
  digits : String
  recording_url : String
  recording_duration : String
  parseErr : Bool

/-- Body of `handle_recording_completion` (inside its `try`, source lines
472-548): decode the form, compute the silent-timeout flag
(`duration == 5 and not digits`), fetch the state, then dispatch on
repeat / timeout / normal advance.  `.error` is a raised exception. -/
def recordingBody (env : WebhookEnv) (store : Option SessionState)
    (p : RecordingParams) : Except Unit (Option SessionState × HttpResponse) := do
  if p.parseErr then .error () else
  let recording_duration_int := pyParseIntOr0 p.recording_duration
  let is_timeout := recording_duration_int = 5 && p.digits = ""
  let (state, store1) ← get_assessment_state env store p.assessment_id p.skill_type
  if p.digits = "*" then
    pure (generate_question_twiml env store1 p.assessment_id p.skill_type
      (some p.question) state)
  else if is_timeout then
    pure (store1, xmlResponse (timeoutBody p.assessment_id p.skill_type p.question))
  else
    let newResponses := dictInsert state.responses p.question (ResponseEntry.mk p.recording_url env.now)
    let state1 :=
      if p.recording_url ≠ "" && p.question ≠ "" then
        { state with responses := newResponses }
      else state
    let next_state := advance_to_next_question state1
    let next_question := get_current_question next_state
    let store2 := some next_state
    pure (generate_question_twiml env store2 p.assessment_id p.skill_type
      next_question next_state)

/-- `handle_recording_completion` (source lines 470-552): any raised
exception degrades to a spoken acknowledgement. -/
def handle_recording_completion (env : WebhookEnv) (store : Option SessionState)
    (p : RecordingParams) : Option SessionState × HttpResponse :=
  match recordingBody env store p with
  | .ok r => r
  | .error _ =>
    (store, create_twiml_response
      "Thank you for your response. We\x27re processing your assessment." true)

/-- State after the conditional save of the recording handler (source
lines 530-536): the response is recorded only when both the recording
reference and the question are non-empty. -/
def recordingSavedState (env : WebhookEnv) (s : SessionState) (p : RecordingParams) : SessionState :=
  let newResponses := dictInsert s.responses p.question (ResponseEntry.mk p.recording_url env.now)
  if p.recording_url ≠ "" && p.question ≠ "" then { s with responses := newResponses }
  else s

/-- State saved by the normal-advance path of the recording handler:
the conditional save, then the index advanced by one (source lines
530-545). -/
def recordingAdvanceState (env : WebhookEnv) (s : SessionState) (p : RecordingParams) : SessionState :=
  advance_to_next_question (recordingSavedState env s p)

/-- The three telephony callbacks of the call flow. -/
inductive CallbackEvent where
  | initialContact (assessment_id skill_type : String)
  | recording (p : RecordingParams)
  | gather (p : GatherParams)

/-- Dispatch of one callback, as `handle_http_request` routes `/webhook`,
`/webhook/recording` and `/webhook/gather` (source lines 173-180). -/
def applyCallback (env : WebhookEnv) (store : Option SessionState) :
    CallbackEvent → Option SessionState × HttpResponse
  | .initialContact aid skill => handle_initial_webhook env store aid skill
  | .recording p => handle_recording_completion env store p
  | .gather p => handle_gather_response store p

/-- Well-formed TwiML markup: the fixed XML declaration and `<Response>`
frame around some inner content. -/
def wellFormedTwiml (body : String) : Prop :=
  ∃ inner, body = xmlDecl ++ inner ++ "\n</Response>"

/-! ### Concrete instances used by counterexamples and witnesses -/

/-- Category-score object with all-integer values, percentage `pct`. -/
def catObj (pct : ℚ) : JValue :=
  .obj [("average_score", .num 8), ("percentage", .num pct), ("questions", .arr [])]

/-- Model output where every category percentage is 80 (so the triple is
(80, 80, 80)) but the model itself proposes `FAIL`. -/
def cxAllEighty : JValue :=
  .obj [("overall_assessment", .obj
          [("recommendation", .str "FAIL"),
           ("reasoning", .str "model states fail"),
           ("categories_above_70_percent", .num 3)]),
        ("category_scores", .obj
          [("baseline", catObj 80), ("experience", catObj 80), ("knowledge", catObj 80)]),
        ("question_scores", .obj []),
        ("summary", .obj [])]

/-- Extraction of one category percentage from a model output object. -/
def categoryPercentage (j : JValue) (category_key : String) : Option JValue :=
  match j with
  | .obj fields =>
    match fields.lookup "category_scores" with
    | some (.obj cs) =>
      match cs.lookup category_key with
      | some (.obj cd) => cd.lookup "percentage"
      | _ => none
    | _ => none
  | _ => none

/-- Valid JSON model output whose top level proposes `PASS` and whose
`question_scores` contains a string-valued score, which makes
`score >= 8` in `format_analysis_for_humans` raise, so the raw object is
returned unformatted.  Its JSON text is
`\x7b"overall_recommendation": "PASS", "question_scores": \x7b"q1": \x7b"score": "9"\x7d\x7d\x7d`. -/
def cxStringScore : JValue :=
  .obj [("overall_recommendation", .str "PASS"),
        ("question_scores", .obj [("q1", .obj [("score", .str "9")])])]

/-- Environment shared by the concrete webhook scenarios. -/
def cxEnv : WebhookEnv := { now := "2025-01-01T00:00:00", stateReadErr := false }

/-- Bartender session waiting on question index 1 (`experience_1`). -/
def cxState : SessionState :=
  { assessment_id := "bartender_20250101_120000_1234",
    skill_type := "bartender",
    questions_sequence := templateQuestionsSequence "bartender",
    current_question_index := 1,
    responses := [],
    status := "in_progress",
    created_at := "2025-01-01T00:00:00",
    completed_at := none }

/-- One recording-submitted callback for `experience_1`. -/
def cxRecordingCb : RecordingParams :=
  { assessment_id := "bartender_20250101_120000_1234",
    skill_type := "bartender",
    question := "experience_1",
    digits := "",
    recording_url := "https://api.twilio.com/recording/RE1",
    recording_duration := "42",
    parseErr := false }

/-- Store after the first delivery of `cxRecordingCb`. -/
def cxStoreAfterFirst : Option SessionState :=
  (handle_recording_completion cxEnv (some cxState) cxRecordingCb).1

/-- Store after a duplicate second delivery of the same callback. -/
def cxStoreAfterSecond : Option SessionState :=
  (handle_recording_completion cxEnv cxStoreAfterFirst cxRecordingCb).1

/-- Session state after the first delivery of `cxRecordingCb`. -/
def cxStateAfterFirst : SessionState :=
  { cxState with
      current_question_index := 2,
      responses := [("experience_1",
        ResponseEntry.mk "https://api.twilio.com/recording/RE1" "2025-01-01T00:00:00")] }

/-- Gather callback where the candidate pressed the repeat key `*`. -/
def cxGatherStar : GatherParams :=
  { assessment_id := "bartender_20250101_120000_1234",
    skill_type := "bartender",
    question := "experience_1",
    rawBody := some "Digits=%2A",
    digits := "*",
    parseErr := false }

/-- Recording callback where `*` was pressed during the recording. -/
def cxRecordingStar : RecordingParams :=
  { cxRecordingCb with digits := "*" }

/-- Recording callback of a candidate who stayed silent for exactly the
5-second pre-answer window. -/
def cxRecordingSilent : RecordingParams :=
  { cxRecordingCb with recording_duration := "5", recording_url := "" }

/-- Existing index holding an entry for the reprocessed assessment and one
other entry. -/
def cxExistingIndex : AssessmentIndex :=
  { assessments :=
      [{ id := "bartender_20250101_120000_1234", role := "bartender",
         date := "20250101", time := "120000", status := "pass",
         analyzed_at := "2025-01-01T12:10:00", file_path := "assessments/bartender_20250101_120000_1234/analysis_results.json" },
       { id := "host_20250102_130000_9999", role := "host",
         date := "20250102", time := "130000", status := "review",
         analyzed_at := "2025-01-02T13:10:00", file_path := "assessments/host_20250102_130000_9999/analysis_results.json" }],
    last_updated := some "2025-01-02T13:10:00",
    total_count := 2 }

/-- Results dict for the reprocessing run. -/
def cxResults : JValue :=
  .obj [("llm_analysis", .obj [("overall_assessment", .obj [("recommendation", .str "PASS")])]),
        ("analyzed_at", .str "2025-01-03T10:00:00")]

/-- Index produced by re-running the update for the assessment already
present in `cxExistingIndex`: the old entry is replaced, not duplicated,
and the entries are sorted by `analyzed_at` descending. -/
def cxUpdatedIndex : AssessmentIndex :=
  { assessments :=
      [{ id := "bartender_20250101_120000_1234", role := "bartender",
         date := "20250101", time := "120000", status := "pass",
         analyzed_at := "2025-01-03T10:00:00", file_path := "assessments/bartender_20250101_120000_1234/analysis_results.json" },
       { id := "host_20250102_130000_9999", role := "host",
         date := "20250102", time := "130000", status := "review",
         analyzed_at := "2025-01-02T13:10:00", file_path := "assessments/host_20250102_130000_9999/analysis_results.json" }],
    last_updated := some "2025-01-03T10:00:01",
    total_count := 2 }

/-- Minimal model output used to exercise the formatting pass end to end:
only `overall_assessment.recommendation` is supplied. -/
def cxSmallModelOutput : JValue :=
  .obj [("overall_assessment", .obj [("recommendation", .str "PASS")])]

/-- The value `format_analysis_for_humans` produces for
`cxSmallModelOutput` with an unknown skill type. -/
def cxSmallFormatted : JValue :=
  .obj [("overall_assessment", .obj
          [("recommendation", .str "PASS"),
           ("reasoning", .str "Analysis completed"),
           ("categories_above_70_percent", .num 0)]),
        ("category_breakdown", .obj []),
        ("question_details", .obj []),
        ("summary", .obj [])]

/-! ## Theorems -/

/-- Decomposition of a successful `Except` bind. -/
theorem exceptBind_ok {ε : Type u} {α β : Type v}
    {e : Except ε α} {f : α → Except ε β} {b : β} :
    e >>= f = Except.ok b ↔ ∃ a, e = Except.ok a ∧ f a = Except.ok b := by
  cases e <;> simp [Bind.bind, Except.bind]

/-- Shape of every successful result of `formatBody`: a four-field object
whose `overall_assessment.recommendation` is exactly the value looked up
from the model output (default `"REVIEW"`). -/
theorem formatBody_shape {j : JValue} {skill : String} {v : JValue}
    (h : formatBody j skill = .ok v) :
    ∃ oa recVal reasonVal cat70 bd qd sm,
      jGetD j "overall_assessment" (.obj []) = .ok oa ∧
      jGetD oa "recommendation" (.str "REVIEW") = .ok recVal ∧
      v = .obj [("overall_assessment", .obj
                  [("recommendation", recVal),
                   ("reasoning", reasonVal),
                   ("categories_above_70_percent", cat70)]),
                ("category_breakdown", .obj bd),
                ("question_details", .obj qd),
                ("summary", sm)] := by
  simp only [formatBody, exceptBind_ok, pure, Except.pure, Except.ok.injEq] at h
  obtain ⟨oa, h1, recVal, h2, reasonVal, h3, cat70, h4, sm, h5, cs, h6, bd, h7,
    qs, h8, qi, h9, qd, h10, h11⟩ := h
  exact ⟨oa, recVal, reasonVal, cat70, bd, qd, sm, h1, h2, h11.symm⟩

/-- Claim C1, counterexample.  The claim states that the overall
recommendation is computed by the system as a pure function of the
category percentage triple (`PASS` iff all three are at least 70).  On the
model output `cxAllEighty` every category percentage is 80 — the spec rule
(`specRecommendation`) gives `PASS` — yet the recommendation the code
records in the formatted analysis (the field the index and dashboard
read) is the model's own proposal `FAIL`: the code copies the model's
verdict instead of recomputing the rule. -/
theorem c1_counterexample :
    categoryPercentage cxAllEighty "baseline" = some (.num 80) ∧
    categoryPercentage cxAllEighty "experience" = some (.num 80) ∧
    categoryPercentage cxAllEighty "knowledge" = some (.num 80) ∧
    specRecommendation 80 80 80 = "PASS" ∧
    overallRecOf (format_analysis_for_humans cxAllEighty "bartender") = some (.str "FAIL") ∧
    JValue.str "FAIL" ≠ JValue.str "PASS" := by
  refine ⟨rfl, rfl, rfl, rfl, rfl, ?_⟩
  intro h
  injection h with h2
  exact absurd h2 (by decide)

/-- Claim C1, amended.  The code does not recompute the overall
recommendation from the category percentages: whenever the formatting
pass succeeds, the recommendation recorded under
`overall_assessment.recommendation` is exactly the recommendation the
model itself proposed (the threshold rule appears only in the prompt text
handed to the model, and the ≥70 comparison is applied in code only to
label each single category's status). -/
theorem c1_amended {fields oaFields : List (String × JValue)} {r v : JValue} {skill : String}
    (hoa : fields.lookup "overall_assessment" = some (.obj oaFields))
    (hrec : oaFields.lookup "recommendation" = some r)
    (hfmt : formatBody (.obj fields) skill = .ok v) :
    format_analysis_for_humans (.obj fields) skill = v ∧ overallRecOf v = some r := by
  refine ⟨by simp [format_analysis_for_humans, hfmt], ?_⟩
  obtain ⟨oa, recVal, reasonVal, cat70, bd, qd, sm, h1, h2, h3⟩ := formatBody_shape hfmt
  simp only [jGetD, hoa, Option.getD_some, Except.ok.injEq] at h1
  subst h1
  simp only [jGetD, hrec, Option.getD_some, Except.ok.injEq] at h2
  subst h2
  subst h3
  simp [overallRecOf, List.lookup]

/-- Witness for `c1_amended` at a concrete model output. -/
theorem c1_amended_witness :
    ([("overall_assessment", JValue.obj [("recommendation", JValue.str "PASS")])].lookup
        "overall_assessment" = some (.obj [("recommendation", .str "PASS")])) ∧
    ([("recommendation", JValue.str "PASS")].lookup "recommendation" = some (.str "PASS")) ∧
    formatBody cxSmallModelOutput "unknown_skill" = .ok cxSmallFormatted ∧
    (format_analysis_for_humans cxSmallModelOutput "unknown_skill" = cxSmallFormatted ∧
      overallRecOf cxSmallFormatted = some (.str "PASS")) :=
  ⟨rfl, rfl, rfl, c1_amended rfl rfl rfl⟩

/-- Claim C2, counterexample.  The claim states the top-level
`recommendation` of `process_assessment_simple` equals `REVIEW` for every
model response that parses as valid JSON.  The valid JSON
`cxStringScore` makes the formatting pass raise internally (a
string-valued question score), so the raw model object — including its
top-level `overall_recommendation: "PASS"` — becomes the analysis, and
the process result carries `PASS`, not `REVIEW`. -/
theorem c2_counterexample :
    (fun _ => some cxStringScore : String → Option JValue) "model output" = some cxStringScore ∧
    process_assessment_simple true
      (some [("experience_1", some "https://api.twilio.com/recording/RE1")])
      (fun _ => .ok "I worked two years") (.ok "model output")
      (fun _ => some cxStringScore) "bartender" .noSuchKey false
      = .ok (.str "PASS") cxStringScore ∧
    JValue.str "PASS" ≠ JValue.str "REVIEW" := by
  refine ⟨rfl, rfl, ?_⟩
  intro h
  injection h with h2
  exact absurd h2 (by decide)

/-- Claim C2, amended.  Whenever the parsed model JSON is either falsy
(degraded branch) or formats without an internal exception, the top-level
`recommendation` of the result is `REVIEW`: the formatted structure never
contains the key `overall_recommendation`, so the lookup falls back to
its default.  Only an internal formatting exception (see
`c2_counterexample`) can surface a different value. -/
theorem c2_recommendation_review
    (responses : List (String × Option String)) (outcome : String → TranscribeOutcome)
    (text : String) (parse : String → Option JValue) (skill : String) (j : JValue)
    (idxR : S3Result AssessmentIndex) (idxW : Bool)
    (hparse : parse text = some j)
    (hfmt : truthy j = false ∨ ∃ v, formatBody j skill = Except.ok v)
    (hresp : responses.isEmpty = false)
    (htr : (transcribe_recordings_simple responses outcome).isEmpty = false) :
    ∃ a, process_assessment_simple true (some responses) outcome (.ok text) parse skill idxR idxW
      = .ok (.str "REVIEW") a := by
  rcases hfmt with hfalsy | ⟨v, hv⟩
  · refine ⟨degradedAnalysis text, ?_⟩
    simp [process_assessment_simple, hresp, htr, analyze_with_llm_simple, hparse, hfalsy,
      degradedAnalysis, jGetD, List.lookup]
  · cases htruthy : truthy j with
    | false =>
      refine ⟨degradedAnalysis text, ?_⟩
      simp [process_assessment_simple, hresp, htr, analyze_with_llm_simple, hparse, htruthy,
        degradedAnalysis, jGetD, List.lookup]
    | true =>
      obtain ⟨oa, recVal, reasonVal, cat70, bd, qd, sm, _, _, h3⟩ := formatBody_shape hv
      refine ⟨v, ?_⟩
      simp only [process_assessment_simple, hresp, htr, analyze_with_llm_simple, hparse, htruthy,
        format_analysis_for_humans, hv, Bool.not_true, Bool.false_eq_true, if_false, if_true]
      subst h3
      simp [jGetD, List.lookup]

/-- Witness for `c2_recommendation_review`. -/
theorem c2_recommendation_review_witness :
    ((fun _ => some (JValue.obj [])) "raw" = some (JValue.obj [])) ∧
    (truthy (JValue.obj []) = false ∨ ∃ v, formatBody (JValue.obj []) "bartender" = Except.ok v) ∧
    ([("experience_1", some "u")] : List (String × Option String)).isEmpty = false ∧
    (transcribe_recordings_simple [("experience_1", some "u")] (fun _ => .ok "answer")).isEmpty = false ∧
    ∃ a, process_assessment_simple true (some [("experience_1", some "u")]) (fun _ => .ok "answer")
      (.ok "raw") (fun _ => some (JValue.obj [])) "bartender" .noSuchKey false
      = .ok (.str "REVIEW") a :=
  ⟨rfl, Or.inl rfl, rfl, rfl,
    c2_recommendation_review [("experience_1", some "u")] (fun _ => .ok "answer") "raw"
      (fun _ => some (JValue.obj [])) "bartender" (JValue.obj []) .noSuchKey false
      rfl (Or.inl rfl) rfl rfl⟩

/-- Claim C7.  When JSON parsing of the model output fails outright (both
the direct parse and the markdown extraction), `analyze_with_llm_simple`
still returns success with the degraded analysis that carries the raw
model text and `overall_recommendation = "REVIEW"`, and the process
result's top-level recommendation is `REVIEW` — never a raised error and
never `FAIL`. -/
theorem c7_parse_failure_degrades_to_review
    (responses : List (String × Option String)) (outcome : String → TranscribeOutcome)
    (text : String) (parse : String → Option JValue) (skill : String)
    (idxR : S3Result AssessmentIndex) (idxW : Bool)
    (hparse : parse text = none)
    (hresp : responses.isEmpty = false)
    (htr : (transcribe_recordings_simple responses outcome).isEmpty = false) :
    analyze_with_llm_simple (.ok text) parse skill = .success (degradedAnalysis text) ∧
    process_assessment_simple true (some responses) outcome (.ok text) parse skill idxR idxW
      = .ok (.str "REVIEW") (degradedAnalysis text) ∧
    JValue.str "REVIEW" ≠ JValue.str "FAIL" := by
  refine ⟨by simp [analyze_with_llm_simple, hparse], ?_, ?_⟩
  · simp [process_assessment_simple, hresp, htr, analyze_with_llm_simple, hparse,
      degradedAnalysis, jGetD, List.lookup]
  · intro h
    injection h with h2
    exact absurd h2 (by decide)

/-- Lookup of another key through the replace pass of `dictInsert`. -/
theorem lookup_map_replace_ne (l : List (String × α)) {k k' : String} (v : α)
    (h : k' ≠ k) :
    List.lookup k' (l.map (fun p => if p.1 = k then (k, v) else p)) = List.lookup k' l := by
  induction l with
  | nil => rfl
  | cons p l ih =>
    rcases p with ⟨pk, pv⟩
    rw [List.map_cons]
    by_cases hp : pk = k
    · rw [show (if (pk, pv).1 = k then (k, v) else (pk, pv)) = (k, v) from if_pos hp,
        List.lookup_cons, List.lookup_cons,
        show (k' == k) = false from beq_eq_false_iff_ne.mpr h,
        show (k' == pk) = false from beq_eq_false_iff_ne.mpr (fun he => h (he.trans hp))]
      exact ih
    · rw [show (if (pk, pv).1 = k then (k, v) else (pk, pv)) = (pk, pv) from if_neg hp,
        List.lookup_cons, List.lookup_cons]
      cases hkk : (k' == pk)
      · exact ih
      · rfl

/-- Lookup of another key is unchanged by appending a new binding. -/
theorem lookup_append_single_ne (l : List (String × α)) {k k' : String} (v : α)
    (h : k' ≠ k) :
    List.lookup k' (l ++ [(k, v)]) = List.lookup k' l := by
  rw [List.lookup_append,
    show List.lookup k' [(k, v)] = none by
      rw [List.lookup_cons, show (k' == k) = false from beq_eq_false_iff_ne.mpr h]; rfl,
    Option.or_none]

/-- Lookup under a `dictInsert` of a different key is unchanged. -/
theorem lookup_dictInsert_ne {l : List (String × α)} {k k' : String} {v : α}
    (h : k' ≠ k) : (dictInsert l k v).lookup k' = l.lookup k' := by
  unfold dictInsert
  split
  · exact lookup_map_replace_ne l v h
  · exact lookup_append_single_ne l v h

/-- Lookup of the inserted key through the replace pass of `dictInsert`,
when the key is present. -/
theorem lookup_map_replace_self (l : List (String × α)) {k : String} (v : α)
    (hany : l.any (fun p => p.1 = k) = true) :
    List.lookup k (l.map (fun p => if p.1 = k then (k, v) else p)) = some v := by
  induction l with
  | nil => simp at hany
  | cons p l ih =>
    rcases p with ⟨pk, pv⟩
    rw [List.map_cons]
    by_cases hp : pk = k
    · rw [show (if (pk, pv).1 = k then (k, v) else (pk, pv)) = (k, v) from if_pos hp,
        List.lookup_cons]
      simp
    · rw [show (if (pk, pv).1 = k then (k, v) else (pk, pv)) = (pk, pv) from if_neg hp,
        List.lookup_cons,
        show (k == pk) = false from beq_eq_false_iff_ne.mpr (fun he => hp he.symm)]
      apply ih
      rw [List.any_cons, show (decide ((pk, pv).1 = k)) = false by simpa using hp,
        Bool.false_or] at hany
      exact hany

/-- Lookup of a key absent from the whole list. -/
theorem lookup_eq_none_of_not_any (l : List (String × α)) {k : String}
    (h : l.any (fun p => p.1 = k) = false) : List.lookup k l = none := by
  induction l with
  | nil => rfl
  | cons p l ih =>
    rcases p with ⟨pk, pv⟩
    rw [List.any_cons, Bool.or_eq_false_iff] at h
    rw [List.lookup_cons,
      show (k == pk) = false from beq_eq_false_iff_ne.mpr
        (fun he => by simp [he.symm] at h)]
    exact ih h.2

/-- Lookup under a `dictInsert` of the same key yields the new value. -/
theorem lookup_dictInsert_self {l : List (String × α)} {k : String} {v : α} :
    (dictInsert l k v).lookup k = some v := by
  unfold dictInsert
  split
  · next hany => exact lookup_map_replace_self l v hany
  · next hany =>
    rw [List.lookup_append,
      lookup_eq_none_of_not_any l (Bool.of_not_eq_true hany)]
    rw [List.lookup_cons]
    simp

/-- One step of the `transcribe_recordings_simple` fold on an entry that
has a `recording_url` inserts exactly `transcriptValue` of its outcome. -/
theorem transcribe_step_eq (outcome : String → TranscribeOutcome)
    (transcripts : List (String × String)) (q : String) :
    (match outcome q with
      | .exn => dictInsert transcripts q "[TRANSCRIPTION_ERROR]"
      | .failedJob => dictInsert transcripts q "[TRANSCRIPTION_FAILED]"
      | .ok t =>
        if t ≠ "" then dictInsert transcripts q t
        else dictInsert transcripts q "[TRANSCRIPTION_FAILED]")
      = dictInsert transcripts q (transcriptValue (outcome q)) := by
  cases h : outcome q with
  | exn => simp [transcriptValue]
  | failedJob => simp [transcriptValue]
  | ok t => by_cases ht : t = "" <;> simp [transcriptValue, ht]

/-- The fold of `transcribe_recordings_simple` never disturbs the entry of
a question that does not occur in the remaining list. -/
theorem transcribe_fold_preserve (outcome : String → TranscribeOutcome) :
    ∀ (rs : List (String × Option String)) (acc : List (String × String)) (q : String),
      (∀ p ∈ rs, p.1 ≠ q) →
      (rs.foldl (fun transcripts qp =>
        match qp.2 with
        | none => transcripts
        | some _ =>
          match outcome qp.1 with
          | .exn => dictInsert transcripts qp.1 "[TRANSCRIPTION_ERROR]"
          | .failedJob => dictInsert transcripts qp.1 "[TRANSCRIPTION_FAILED]"
          | .ok t =>
            if t ≠ "" then dictInsert transcripts qp.1 t
            else dictInsert transcripts qp.1 "[TRANSCRIPTION_FAILED]") acc).lookup q
        = acc.lookup q := by
  intro rs
  induction rs with
  | nil => intro acc q _; rfl
  | cons r rs ih =>
    intro acc q hne
    rcases r with ⟨k, u?⟩
    have hkq : k ≠ q := hne (k, u?) (List.mem_cons_self _ _)
    cases u? with
    | none =>
      simp only [List.foldl_cons]
      exact ih acc q (fun p hp => hne p (List.mem_cons_of_mem _ hp))
    | some u =>
      simp only [List.foldl_cons, transcribe_step_eq outcome acc k]
      rw [ih _ q (fun p hp => hne p (List.mem_cons_of_mem _ hp))]
      exact lookup_dictInsert_ne (Ne.symm hkq)

/-- Claim C8.  In the transcription batch, every question that has a
recording reference ends up with an entry in the transcript map that is a
pure function of its own transcription outcome — transcript text on
success, the sentinel `"[TRANSCRIPTION_FAILED]"` on a failed, timed-out
or empty job, the sentinel `"[TRANSCRIPTION_ERROR]"` on a raised
exception — independently of how any other question fared: one failure
never aborts the batch or blocks the other questions. -/
theorem c8_transcription_failure_isolated
    (responses : List (String × Option String)) (outcome : String → TranscribeOutcome)
    (hnd : (responses.map Prod.fst).Nodup) :
    (∀ q u, (q, some u) ∈ responses →
      (transcribe_recordings_simple responses outcome).lookup q
        = some (transcriptValue (outcome q))) ∧
    transcriptValue .failedJob = "[TRANSCRIPTION_FAILED]" ∧
    transcriptValue .exn = "[TRANSCRIPTION_ERROR]" := by
  refine ⟨?_, rfl, rfl⟩
  unfold transcribe_recordings_simple
  suffices hgen : ∀ (rs : List (String × Option String)) (acc : List (String × String)),
      (rs.map Prod.fst).Nodup →
      ∀ q u, (q, some u) ∈ rs →
      (rs.foldl (fun transcripts qp =>
        match qp.2 with
        | none => transcripts
        | some _ =>
          match outcome qp.1 with
          | .exn => dictInsert transcripts qp.1 "[TRANSCRIPTION_ERROR]"
          | .failedJob => dictInsert transcripts qp.1 "[TRANSCRIPTION_FAILED]"
          | .ok t =>
            if t ≠ "" then dictInsert transcripts qp.1 t
            else dictInsert transcripts qp.1 "[TRANSCRIPTION_FAILED]") acc).lookup q
        = some (transcriptValue (outcome q)) by
    intro q u hm
    exact hgen responses [] hnd q u hm
  intro rs
  induction rs with
  | nil => intro acc _ q u hm; simp at hm
  | cons r rs ih =>
    intro acc hnd2 q u hm
    rcases r with ⟨k, u?⟩
    simp only [List.map_cons, List.nodup_cons] at hnd2
    rcases List.mem_cons.mp hm with heq | hmem
    · injection heq with hk hu
      subst hk
      subst hu
      simp only [List.foldl_cons, transcribe_step_eq outcome acc q]
      rw [transcribe_fold_preserve outcome rs _ q
        (fun p hp hpq => hnd2.1 (hpq ▸ List.mem_map_of_mem Prod.fst hp))]
      exact lookup_dictInsert_self
    · cases u? with
      | none =>
        simp only [List.foldl_cons]
        exact ih acc hnd2.2 q u hmem
      | some u2 =>
        simp only [List.foldl_cons, transcribe_step_eq outcome acc k]
        exact ih _ hnd2.2 q u hmem

/-- Witness for `c8_transcription_failure_isolated`: two questions, one
transcribes, the other's job fails; both entries are present. -/
theorem c8_witness :
    (([("experience_1", some "u1"), ("knowledge_margarita", some "u2")] :
        List (String × Option String)).map Prod.fst).Nodup ∧
    (transcribe_recordings_simple
        [("experience_1", some "u1"), ("knowledge_margarita", some "u2")]
        (fun q => if q = "experience_1" then .ok "two years tending bar" else .failedJob)).lookup
      "knowledge_margarita" = some (transcriptValue
        ((fun q => if q = "experience_1" then .ok "two years tending bar" else .failedJob)
          "knowledge_margarita")) :=
  ⟨by decide,
    (c8_transcription_failure_isolated
      [("experience_1", some "u1"), ("knowledge_margarita", some "u2")]
      (fun q => if q = "experience_1" then .ok "two years tending bar" else .failedJob)
      (by decide)).1 "knowledge_margarita" "u2" (by decide)⟩

/-- Totality of the code-point order. -/
theorem charListLe_total : ∀ a b : List Char, charListLe a b = true ∨ charListLe b a = true := by
  intro a
  induction a with
  | nil => intro b; left; rfl
  | cons c cs ih =>
    intro b
    cases b with
    | nil => right; rfl
    | cons d ds =>
      rcases lt_trichotomy c d with h | h | h
      · left; simp [charListLe, h]
      · subst h
        rcases ih ds with h2 | h2
        · left; simp [charListLe, lt_irrefl, h2]
        · right; simp [charListLe, lt_irrefl, h2]
      · right; simp [charListLe, h]

/-- Transitivity of the code-point order. -/
theorem charListLe_trans :
    ∀ a b c : List Char, charListLe a b = true → charListLe b c = true →
      charListLe a c = true := by
  intro a
  induction a with
  | nil => intro b c _ _; rfl
  | cons x xs ih =>
    intro b c h1 h2
    cases b with
    | nil => simp [charListLe] at h1
    | cons y ys =>
      cases c with
      | nil => simp [charListLe] at h2
      | cons z zs =>
        simp only [charListLe] at h1 h2 ⊢
        rcases lt_trichotomy x y with hxy | hxy | hxy
        · rcases lt_trichotomy y z with hyz | hyz | hyz
          · simp [lt_trans hxy hyz]
          · subst hyz; simp [hxy]
          · rw [if_neg (lt_asymm hyz), if_pos hyz] at h2
            exact absurd h2 (by simp)
        · subst hxy
          rw [if_neg (lt_irrefl x), if_neg (lt_irrefl x)] at h1
          rcases lt_trichotomy x z with hxz | hxz | hxz
          · simp [hxz]
          · subst hxz
            rw [if_neg (lt_irrefl x), if_neg (lt_irrefl x)] at h2 ⊢
            exact ih ys zs h1 h2
          · rw [if_neg (lt_asymm hxz), if_pos hxz] at h2
            exact absurd h2 (by simp)
        · rw [if_neg (lt_asymm hxy), if_pos hxy] at h1
          exact absurd h1 (by simp)

/-- The index sort is a permutation of its input. -/
theorem sortByAnalyzedAtDesc_perm (l : List IndexEntry) :
    (sortByAnalyzedAtDesc l).Perm l :=
  List.perm_insertionSort _ l

/-- The index sort leaves the entries pairwise descending by
`analyzed_at`. -/
theorem sortByAnalyzedAtDesc_pairwise (l : List IndexEntry) :
    List.Pairwise (fun a b => pyStrLe b.analyzed_at a.analyzed_at = true)
      (sortByAnalyzedAtDesc l) := by
  haveI : IsTotal IndexEntry (fun a b => pyStrLe b.analyzed_at a.analyzed_at = true) :=
    ⟨fun a b => charListLe_total _ _⟩
  haveI : IsTrans IndexEntry (fun a b => pyStrLe b.analyzed_at a.analyzed_at = true) :=
    ⟨fun a b c hab hbc => charListLe_trans _ _ _ hbc hab⟩
  exact List.sorted_insertionSort _ l

/-- Counting and length facts of the remove-append-sort upsert. -/
theorem upsert_count_length (l : List IndexEntry) (e : IndexEntry) (aid : String)
    (he : e.id = aid) :
    (sortByAnalyzedAtDesc (l.filter (fun a => a.id ≠ aid) ++ [e])).countP
      (fun a => a.id = aid) = 1 ∧
    (sortByAnalyzedAtDesc (l.filter (fun a => a.id ≠ aid) ++ [e])).length
      = (l.filter (fun a => a.id ≠ aid)).length + 1 := by
  have hperm := sortByAnalyzedAtDesc_perm (l.filter (fun a => a.id ≠ aid) ++ [e])
  constructor
  · rw [hperm.countP_eq, List.countP_append]
    have hzero : (l.filter (fun a => a.id ≠ aid)).countP (fun a => a.id = aid) = 0 := by
      rw [List.countP_eq_zero]
      intro a ha
      have := (List.mem_filter.mp ha).2
      simp only [decide_eq_true_eq] at this ⊢
      exact this
    rw [hzero]
    simp [he]
  · exact hperm.length_eq.trans (by simp)

/-- Claim C9.  A successful index update yields an index whose
`total_count` equals the number of entries, that contains exactly one
entry for the updated assessment id (reprocessing replaces rather than
duplicates), whose length is the number of other entries plus one, and
whose entries are sorted by `analyzed_at` descending; moreover the value
returned by `process_assessment_simple` does not depend on the
index-update oracles at all — an index failure never propagates. -/
theorem c9_index_upsert
    (existing : AssessmentIndex) (assessment_id : String) (results : JValue) (now : String)
    (idx : AssessmentIndex)
    (h : updateIndexCore existing assessment_id results now = .ok idx) :
    (idx.total_count = idx.assessments.length ∧
     idx.assessments.countP (fun a => a.id = assessment_id) = 1 ∧
     idx.assessments.length
       = (existing.assessments.filter (fun a => a.id ≠ assessment_id)).length + 1 ∧
     List.Pairwise (fun a b => pyStrLe b.analyzed_at a.analyzed_at = true) idx.assessments) ∧
    (∀ credsOk state outcome bedrock parse skill r1 w1 r2 w2,
      process_assessment_simple credsOk state outcome bedrock parse skill r1 w1
        = process_assessment_simple credsOk state outcome bedrock parse skill r2 w2) := by
  refine ⟨?_, fun _ _ _ _ _ _ _ _ _ _ => rfl⟩
  simp only [updateIndexCore, exceptBind_ok, pure, Except.pure, Except.ok.injEq] at h
  obtain ⟨la, h1, oa, h2, rec1, h3, status, h4, aav, h5, aat, h6, h7⟩ := h
  subst h7
  exact ⟨(sortByAnalyzedAtDesc_perm _).length_eq.symm,
    (upsert_count_length existing.assessments _ assessment_id rfl).1,
    (upsert_count_length existing.assessments _ assessment_id rfl).2,
    sortByAnalyzedAtDesc_pairwise _⟩

/-- Witness for `c9_index_upsert` on a concrete reprocessing run. -/
theorem c9_witness :
    updateIndexCore cxExistingIndex "bartender_20250101_120000_1234" cxResults
      "2025-01-03T10:00:01" = .ok cxUpdatedIndex ∧
    (cxUpdatedIndex.total_count = cxUpdatedIndex.assessments.length ∧
     cxUpdatedIndex.assessments.countP (fun a => a.id = "bartender_20250101_120000_1234") = 1 ∧
     cxUpdatedIndex.assessments.length
       = (cxExistingIndex.assessments.filter
           (fun a => a.id ≠ "bartender_20250101_120000_1234")).length + 1 ∧
     List.Pairwise (fun a b => pyStrLe b.analyzed_at a.analyzed_at = true)
       cxUpdatedIndex.assessments) :=
  ⟨rfl, (c9_index_upsert cxExistingIndex "bartender_20250101_120000_1234" cxResults
    "2025-01-03T10:00:01" cxUpdatedIndex rfl).1⟩

/-- Python dict assignment of a value already present under the key is the
identity on the association list. -/
theorem dictInsert_self_eq {l : List (String × α)} {k : String} {v : α}
    (hmem : l.any (fun p => p.1 = k) = true)
    (hval : ∀ p ∈ l, p.1 = k → p.2 = v) :
    dictInsert l k v = l := by
  unfold dictInsert
  rw [if_pos hmem]
  have : ∀ p ∈ l, (if p.1 = k then (k, v) else p) = p := by
    intro p hp
    by_cases hpk : p.1 = k
    · rw [if_pos hpk]
      rcases p with ⟨pk, pv⟩
      rw [Prod.mk.injEq]
      exact ⟨(show pk = k from hpk).symm, (hval (pk, pv) hp hpk).symm⟩
    · rw [if_neg hpk]
  calc l.map (fun p => if p.1 = k then (k, v) else p) = l.map id := List.map_congr_left this
    _ = l := List.map_id l

/-- The completion handler keeps the saved session at the same question
index with the same responses (it only flips the status). -/
theorem completion_store_char (env : WebhookEnv) (st : SessionState) (aid skill : String) :
    ∃ s', (generate_completion_twiml env (some st) aid skill).1 = some s' ∧
      s'.current_question_index = st.current_question_index ∧
      s'.responses = st.responses := by
  unfold generate_completion_twiml
  by_cases he : env.stateReadErr
  · exact ⟨st, by simp [he], rfl, rfl⟩
  · exact ⟨{ st with status := "completed", completed_at := some env.now }, by simp [he], rfl, rfl⟩

/-- Characterisation of the store after `generate_question_twiml` when the
store holds the state the caller passed: either it is untouched (up to the
status flip of completion) or — only for the intro question — advanced by
exactly one. -/
theorem genQ_store_char (env : WebhookEnv) (st : SessionState) (aid skill : String)
    (qk : Option String) :
    ∃ s', (generate_question_twiml env (some st) aid skill qk st).1 = some s' ∧
      ((s'.current_question_index = st.current_question_index ∧ s'.responses = st.responses) ∨
       (qk = some "intro" ∧ s'.current_question_index = st.current_question_index + 1 ∧
         s'.responses = st.responses)) := by
  cases qk with
  | none =>
    obtain ⟨s', h1, h2, h3⟩ := completion_store_char env st aid skill
    exact ⟨s', h1, Or.inl ⟨h2, h3⟩⟩
  | some q =>
    simp only [generate_question_twiml]
    by_cases hq0 : q = ""
    · rw [if_pos hq0]
      obtain ⟨s', h1, h2, h3⟩ := completion_store_char env st aid skill
      exact ⟨s', h1, Or.inl ⟨h2, h3⟩⟩
    · rw [if_neg hq0]
      by_cases htw : templateExistsW skill
      · rw [if_pos htw]
        by_cases hqi : q = "intro"
        · rw [if_pos hqi]
          cases hnq : get_current_question (advance_to_next_question st) with
          | none =>
            obtain ⟨s', h1, h2, h3⟩ :=
              completion_store_char env (advance_to_next_question st) aid skill
            exact ⟨s', h1, Or.inr ⟨by rw [hqi], h2, h3⟩⟩
          | some nq =>
            by_cases hnq0 : nq = ""
            · obtain ⟨s', h1, h2, h3⟩ :=
                completion_store_char env (advance_to_next_question st) aid skill
              refine ⟨s', ?_, Or.inr ⟨by rw [hqi], h2, h3⟩⟩
              simpa [hnq0] using h1
            · refine ⟨advance_to_next_question st, ?_, Or.inr ⟨by rw [hqi], rfl, rfl⟩⟩
              simp [hnq0]
        · rw [if_neg hqi]
          by_cases hqg : q = "goodbye"
          · rw [if_pos hqg]
            obtain ⟨s', h1, h2, h3⟩ := completion_store_char env st aid skill
            exact ⟨s', h1, Or.inl ⟨h2, h3⟩⟩
          · rw [if_neg hqg]
            exact ⟨st, rfl, Or.inl ⟨rfl, rfl⟩⟩
      · rw [if_neg htw]
        exact ⟨st, rfl, Or.inl ⟨rfl, rfl⟩⟩

/-- The gather handler never touches the session store. -/
theorem gather_store_eq (store : Option SessionState) (p : GatherParams) :
    (handle_gather_response store p).1 = store := by
  unfold handle_gather_response
  by_cases hp : p.parseErr
  · rw [if_pos hp]
  · rw [if_neg hp]
    cases p.rawBody with
    | none => rfl
    | some b =>
      by_cases hb : b = ""
      · simp [hb]
      · by_cases hd : p.digits = "*" <;> simp [hb, hd]

/-- On the repeat key `*`, the recording handler replays the question
through `generate_question_twiml` on the unchanged state. -/
theorem recording_star_eq (env : WebhookEnv) (s : SessionState) (p : RecordingParams)
    (hp : p.parseErr = false) (he : env.stateReadErr = false)
    (hd : p.digits = "*") :
    handle_recording_completion env (some s) p
      = generate_question_twiml env (some s) p.assessment_id p.skill_type (some p.question) s := by
  unfold handle_recording_completion recordingBody
  simp [hp, he, hd, get_assessment_state, Bind.bind, Except.bind, pure, Except.pure]

/-- On a silent timeout (duration exactly 5, no digits), the recording
handler leaves the store as read and emits the re-prompt directive. -/
theorem recording_timeout_eq (env : WebhookEnv) (s : SessionState) (p : RecordingParams)
    (hp : p.parseErr = false) (he : env.stateReadErr = false)
    (h5 : pyParseIntOr0 p.recording_duration = 5) (hd : p.digits = "") :
    handle_recording_completion env (some s) p
      = (some s, xmlResponse (timeoutBody p.assessment_id p.skill_type p.question)) := by
  unfold handle_recording_completion recordingBody
  simp [hp, he, h5, hd, get_assessment_state, Bind.bind, Except.bind, pure, Except.pure]

/-- On a normal answer (not repeat, not timeout, with a recording
reference and a question), the recording handler stores the response,
advances by one and delegates to `generate_question_twiml` on the next
question. -/
theorem recording_advance_eq (env : WebhookEnv) (s : SessionState) (p : RecordingParams)
    (hp : p.parseErr = false) (he : env.stateReadErr = false)
    (hd : p.digits ≠ "*")
    (ht : ¬(pyParseIntOr0 p.recording_duration = 5 ∧ p.digits = "")) :
    handle_recording_completion env (some s) p =
      generate_question_twiml env (some (recordingAdvanceState env s p))
        p.assessment_id p.skill_type
        (get_current_question (recordingAdvanceState env s p))
        (recordingAdvanceState env s p) := by
  have htm : (decide (pyParseIntOr0 p.recording_duration = 5) && decide (p.digits = "")) = false := by
    by_cases h5 : pyParseIntOr0 p.recording_duration = 5
    · by_cases h0 : p.digits = ""
      · exact absurd ⟨h5, h0⟩ ht
      · simp [h0]
    · simp [h5]
  unfold handle_recording_completion recordingBody recordingAdvanceState recordingSavedState
  simp [hp, he, hd, htm, get_assessment_state, Bind.bind, Except.bind, pure, Except.pure]
theorem c7_witness :
    ((fun _ => none : String → Option JValue) "not json at all" = none) ∧
    ([("experience_1", some "u")] : List (String × Option String)).isEmpty = false ∧
    (transcribe_recordings_simple [("experience_1", some "u")] (fun _ => .ok "answer")).isEmpty = false ∧
    (analyze_with_llm_simple (.ok "not json at all") (fun _ => none) "bartender"
        = .success (degradedAnalysis "not json at all") ∧
      process_assessment_simple true (some [("experience_1", some "u")]) (fun _ => .ok "answer")
        (.ok "not json at all") (fun _ => none) "bartender" .noSuchKey false
        = .ok (.str "REVIEW") (degradedAnalysis "not json at all") ∧
      JValue.str "REVIEW" ≠ JValue.str "FAIL") :=
  ⟨rfl, rfl, rfl,
    c7_parse_failure_degrades_to_review [("experience_1", some "u")] (fun _ => .ok "answer")
      "not json at all" (fun _ => none) "bartender" .noSuchKey false rfl rfl rfl⟩

/-- Reduction of `generate_question_twiml` on a regular question. -/
theorem genQ_some_regular (env : WebhookEnv) (store : Option SessionState)
    (aid skill q : String) (state : SessionState)
    (hq0 : q ≠ "") (htw : templateExistsW skill = true)
    (hqi : q ≠ "intro") (hqg : q ≠ "goodbye") :
    generate_question_twiml env store aid skill (some q) state
      = (store, xmlResponse (regularBody aid skill q)) := by
  simp only [generate_question_twiml]
  rw [if_neg hq0, if_pos htw, if_neg hqi, if_neg hqg]

/-- Reduction of `generate_question_twiml` on an exhausted sequence. -/
theorem genQ_none_eq (env : WebhookEnv) (store : Option SessionState)
    (aid skill : String) (state : SessionState) :
    generate_question_twiml env store aid skill none state
      = generate_completion_twiml env store aid skill := rfl

/-- Reduction of `generate_question_twiml` on the falsy question key and
on the goodbye question: both complete the assessment. -/
theorem genQ_some_completion (env : WebhookEnv) (store : Option SessionState)
    (aid skill q : String) (state : SessionState)
    (h : q = "" ∨ (templateExistsW skill = true ∧ q ≠ "intro" ∧ q = "goodbye")) :
    generate_question_twiml env store aid skill (some q) state
      = generate_completion_twiml env store aid skill := by
  simp only [generate_question_twiml]
  rcases h with h | ⟨htw, hqi, hqg⟩
  · rw [if_pos h]
  · rw [if_neg (show ¬q = "" by rw [hqg]; decide),
      if_pos htw, if_neg hqi, if_pos hqg]

/-- Response part of the completion handler for a known role. -/
theorem completion_resp (env : WebhookEnv) (store : Option SessionState)
    (aid skill : String) (htw : templateExistsW skill = true) :
    (generate_completion_twiml env store aid skill).2
      = xmlResponse (goodbyeBody skill) := by
  show xmlResponse (if templateExistsW skill then goodbyeBody skill else completionFallbackBody)
    = xmlResponse (goodbyeBody skill)
  rw [if_pos htw]

/-- Claim C3, counterexample.  The claim states that delivering the same
recording-submitted callback twice (same question, digits, recording
reference and duration) leaves `current_question_index` and the responses
map unchanged after the second delivery.  Delivering `cxRecordingCb` to
the bartender session at index 1 advances the index to 2; the identical
second delivery advances it again to 3: the handler performs no duplicate
suppression, so a replayed callback double-advances the session. -/
theorem c3_counterexample :
    cxStoreAfterFirst.map SessionState.current_question_index = some 2 ∧
    cxStoreAfterSecond.map SessionState.current_question_index = some 3 ∧
    cxStoreAfterSecond.map SessionState.current_question_index
      ≠ cxStoreAfterFirst.map SessionState.current_question_index ∧
    cxStoreAfterSecond.map SessionState.responses
      = cxStoreAfterFirst.map SessionState.responses := by
  refine ⟨rfl, rfl, ?_, rfl⟩
  intro h
  rw [show cxStoreAfterSecond.map SessionState.current_question_index = some 3 from rfl,
    show cxStoreAfterFirst.map SessionState.current_question_index = some 2 from rfl] at h
  exact absurd (Option.some.inj h) (by decide)

/-- Claim C3, amended.  Replaying the same recording callback a second
time leaves the responses map unchanged — the entry is overwritten with
the identical recording reference and timestamp — but it advances
`current_question_index` by one more: the handler has no duplicate
detection, so duplicate delivery double-advances the session instead of
being a no-op. -/
theorem c3_replay_advances_again (env : WebhookEnv) (s1 : SessionState) (p : RecordingParams)
    (hp : p.parseErr = false) (he : env.stateReadErr = false)
    (hd : p.digits ≠ "*")
    (ht : ¬(pyParseIntOr0 p.recording_duration = 5 ∧ p.digits = ""))
    (hu : p.recording_url ≠ "") (hq : p.question ≠ "")
    (hmem : s1.responses.any (fun e => e.1 = p.question) = true)
    (hval : ∀ e ∈ s1.responses, e.1 = p.question →
      e.2 = ResponseEntry.mk p.recording_url env.now)
    (hni : s1.questions_sequence.get? (s1.current_question_index + 1) ≠ some "intro") :
    ∃ s2, (handle_recording_completion env (some s1) p).1 = some s2 ∧
      s2.current_question_index = s1.current_question_index + 1 ∧
      s2.responses = s1.responses := by
  rw [recording_advance_eq env s1 p hp he hd ht]
  have hstate : recordingAdvanceState env s1 p = advance_to_next_question s1 := by
    unfold recordingAdvanceState recordingSavedState
    rw [dictInsert_self_eq hmem hval]
    simp
  rw [hstate]
  obtain ⟨s2, h1, hchar⟩ := genQ_store_char env (advance_to_next_question s1)
    p.assessment_id p.skill_type (get_current_question (advance_to_next_question s1))
  refine ⟨s2, h1, ?_⟩
  rcases hchar with ⟨h2, h3⟩ | ⟨hqi, h2, h3⟩
  · exact ⟨h2, h3⟩
  · exact absurd hqi hni

/-- Witness for `c3_replay_advances_again`: the second delivery of
`cxRecordingCb` to the state already holding its response. -/
theorem c3_replay_witness :
    cxStoreAfterFirst = some cxStateAfterFirst ∧
    cxStateAfterFirst.responses.any (fun e => e.1 = cxRecordingCb.question) = true ∧
    (∃ s2, (handle_recording_completion cxEnv (some cxStateAfterFirst) cxRecordingCb).1 = some s2 ∧
      s2.current_question_index = cxStateAfterFirst.current_question_index + 1 ∧
      s2.responses = cxStateAfterFirst.responses) :=
  ⟨rfl, rfl,
    c3_replay_advances_again cxEnv cxStateAfterFirst cxRecordingCb rfl rfl
      (by decide) (by decide) (by decide) (by decide) rfl (by decide) (by decide)⟩

/-- Claim C4.  First conjunct: no callback handler ever decreases
`current_question_index` — across all three callback shapes, if the store
held a session and still holds one afterwards, the index has not gone
down.  Second conjunct: the gather handler never touches the store, and on
the repeat key `*` it reissues the directive for the current question.
Third conjunct: `*` during a recording likewise leaves the index and the
responses map unchanged (for any question that is not the auto-advancing
intro). -/
theorem c4_monotone_and_repeat :
    (∀ (env : WebhookEnv) (store : Option SessionState) (ev : CallbackEvent)
      (s s2 : SessionState),
      store = some s → (applyCallback env store ev).1 = some s2 →
      s.current_question_index ≤ s2.current_question_index) ∧
    (∀ (store : Option SessionState) (p : GatherParams),
      (handle_gather_response store p).1 = store ∧
      (p.parseErr = false → ∀ b, p.rawBody = some b → b ≠ "" → p.digits = "*" →
        (handle_gather_response store p).2
          = xmlResponse (repeatBody p.assessment_id p.skill_type p.question))) ∧
    (∀ (env : WebhookEnv) (s : SessionState) (p : RecordingParams),
      p.parseErr = false → env.stateReadErr = false → p.digits = "*" →
      p.question ≠ "intro" →
      ∃ s2, (handle_recording_completion env (some s) p).1 = some s2 ∧
        s2.current_question_index = s.current_question_index ∧
        s2.responses = s.responses) := by
  refine ⟨?_, ?_, ?_⟩
  · intro env store ev s s2 hs hres
    subst hs
    cases ev with
    | initialContact aid skill =>
      simp only [applyCallback] at hres
      unfold handle_initial_webhook at hres
      by_cases ha : aid = ""
      · rw [if_pos ha] at hres
        rw [← Option.some.inj hres]
      · rw [if_neg ha] at hres
        by_cases he : env.stateReadErr
        · simp only [get_assessment_state, if_pos he] at hres
          rw [← Option.some.inj hres]
        · simp only [get_assessment_state, if_neg he] at hres
          obtain ⟨s', h1, hchar⟩ :=
            genQ_store_char env s aid skill (get_current_question s)
          rw [h1] at hres
          rw [← Option.some.inj hres]
          rcases hchar with ⟨h2, _⟩ | ⟨_, h2, _⟩ <;> omega
    | recording p =>
      replace hres : (handle_recording_completion env (some s) p).1 = some s2 := hres
      by_cases hp : p.parseErr
      · unfold handle_recording_completion recordingBody at hres
        simp only [hp, if_pos rfl] at hres
        rw [← Option.some.inj hres]
      · have hp2 : p.parseErr = false := Bool.of_not_eq_true hp
        by_cases he : env.stateReadErr
        · unfold handle_recording_completion recordingBody at hres
          simp only [hp2, Bool.false_eq_true, if_false, get_assessment_state,
            if_pos he, Bind.bind, Except.bind] at hres
          rw [← Option.some.inj hres]
        · have he2 : env.stateReadErr = false := Bool.of_not_eq_true he
          by_cases hd : p.digits = "*"
          · rw [recording_star_eq env s p hp2 he2 hd] at hres
            obtain ⟨s', h1, hchar⟩ :=
              genQ_store_char env s p.assessment_id p.skill_type (some p.question)
            rw [h1] at hres
            rw [← Option.some.inj hres]
            rcases hchar with ⟨h2, _⟩ | ⟨_, h2, _⟩ <;> omega
          · by_cases htm : (pyParseIntOr0 p.recording_duration = 5 ∧ p.digits = "")
            · rw [recording_timeout_eq env s p hp2 he2 htm.1 htm.2] at hres
              rw [← Option.some.inj hres]
            · rw [recording_advance_eq env s p hp2 he2 hd htm] at hres
              obtain ⟨s', h1, hchar⟩ := genQ_store_char env
                (recordingAdvanceState env s p) p.assessment_id p.skill_type
                (get_current_question (recordingAdvanceState env s p))
              rw [h1] at hres
              rw [← Option.some.inj hres]
              have hidx : (recordingAdvanceState env s p).current_question_index
                  = s.current_question_index + 1 := by
                unfold recordingAdvanceState recordingSavedState advance_to_next_question
                split <;> rfl
              rcases hchar with ⟨h2, _⟩ | ⟨_, h2, _⟩ <;> omega
    | gather p =>
      replace hres : (handle_gather_response (some s) p).1 = some s2 := hres
      rw [gather_store_eq] at hres
      rw [← Option.some.inj hres]
  · intro store p
    refine ⟨gather_store_eq store p, ?_⟩
    intro hp b hb hbne hd
    unfold handle_gather_response
    simp [hp, hb, hbne, hd]
  · intro env s p hp he hd hqi
    rw [recording_star_eq env s p hp he hd]
    obtain ⟨s', h1, hchar⟩ :=
      genQ_store_char env s p.assessment_id p.skill_type (some p.question)
    refine ⟨s', h1, ?_⟩
    rcases hchar with ⟨h2, h3⟩ | ⟨hq2, _, _⟩
    · exact ⟨h2, h3⟩
    · exact absurd (Option.some.inj hq2) hqi

/-- Witness for `c4_monotone_and_repeat`: one concrete delivery of each
shape. -/
theorem c4_witness :
    (some cxState = some cxState ∧
      (applyCallback cxEnv (some cxState) (.recording cxRecordingCb)).1
        = some cxStateAfterFirst ∧
      cxState.current_question_index ≤ cxStateAfterFirst.current_question_index) ∧
    ((handle_gather_response (some cxState) cxGatherStar).1 = some cxState ∧
      (handle_gather_response (some cxState) cxGatherStar).2
        = xmlResponse (repeatBody cxGatherStar.assessment_id cxGatherStar.skill_type
            cxGatherStar.question)) ∧
    (∃ s2, (handle_recording_completion cxEnv (some cxState) cxRecordingStar).1 = some s2 ∧
      s2.current_question_index = cxState.current_question_index ∧
      s2.responses = cxState.responses) :=
  ⟨⟨rfl, rfl,
      c4_monotone_and_repeat.1 cxEnv (some cxState) (.recording cxRecordingCb)
        cxState cxStateAfterFirst rfl rfl⟩,
    ⟨(c4_monotone_and_repeat.2.1 (some cxState) cxGatherStar).1,
      (c4_monotone_and_repeat.2.1 (some cxState) cxGatherStar).2 rfl "Digits=%2A" rfl
        (by decide) rfl⟩,
    c4_monotone_and_repeat.2.2 cxEnv cxState cxRecordingStar rfl rfl rfl (by decide)⟩

/-- Claim C5.  A recording callback whose duration is exactly the
5-second pre-answer timeout with no digits pressed is treated as a silent
timeout: the handler leaves the stored session exactly as it was (no
advance, no stored response) and returns the re-prompt directive — which,
by definition, plays the spoken instructions and re-opens a 120-second
recording window for the same question. -/
theorem c5_silent_timeout_reprompts (env : WebhookEnv) (s : SessionState) (p : RecordingParams)
    (hp : p.parseErr = false) (he : env.stateReadErr = false)
    (h5 : pyParseIntOr0 p.recording_duration = 5) (hd : p.digits = "") :
    handle_recording_completion env (some s) p
      = (some s, xmlResponse (timeoutBody p.assessment_id p.skill_type p.question)) ∧
    timeoutBody p.assessment_id p.skill_type p.question
      = twimlWrap ("\n    <Play>" ++ instructionsUrl ++ "</Play>\n    "
          ++ recordLong (recordAction p.assessment_id p.skill_type p.question false)
          ++ "\n    " ++ noAnswerTail) :=
  ⟨recording_timeout_eq env s p hp he h5 hd, rfl⟩

/-- Witness for `c5_silent_timeout_reprompts`: a 5-second silent recording
callback against the bartender session at index 1. -/
theorem c5_witness :
    pyParseIntOr0 cxRecordingSilent.recording_duration = 5 ∧
    cxRecordingSilent.digits = "" ∧
    handle_recording_completion cxEnv (some cxState) cxRecordingSilent
      = (some cxState, xmlResponse (timeoutBody cxRecordingSilent.assessment_id
          cxRecordingSilent.skill_type cxRecordingSilent.question)) :=
  ⟨rfl, rfl,
    (c5_silent_timeout_reprompts cxEnv cxState cxRecordingSilent rfl rfl rfl rfl).1⟩

/-- Claim C6.  A non-timeout, non-repeat recording callback with a
recording reference and a question attaches the response for the callback
question, advances `current_question_index` by exactly one, and returns
the directive for the new current question — the regular question TwiML
when one remains, the completion directive when the new index is past the
last index (and likewise for the presentation-only goodbye question,
whose directive is the completion TwiML). -/
theorem c6_advance_and_next_directive (env : WebhookEnv) (s : SessionState) (p : RecordingParams)
    (hp : p.parseErr = false) (he : env.stateReadErr = false)
    (hd : p.digits ≠ "*")
    (ht : ¬(pyParseIntOr0 p.recording_duration = 5 ∧ p.digits = ""))
    (hu : p.recording_url ≠ "") (hq : p.question ≠ "")
    (htw : templateExistsW p.skill_type = true)
    (hni : s.questions_sequence.get? (s.current_question_index + 1) ≠ some "intro") :
    ∃ s2, (handle_recording_completion env (some s) p).1 = some s2 ∧
      s2.current_question_index = s.current_question_index + 1 ∧
      s2.responses = dictInsert s.responses p.question
        (ResponseEntry.mk p.recording_url env.now) ∧
      (s.questions_sequence.get? (s.current_question_index + 1) = none →
        (handle_recording_completion env (some s) p).2
          = xmlResponse (goodbyeBody p.skill_type)) ∧
      (∀ nq, s.questions_sequence.get? (s.current_question_index + 1) = some nq →
        nq ≠ "" → nq ≠ "goodbye" →
        (handle_recording_completion env (some s) p).2
          = xmlResponse (regularBody p.assessment_id p.skill_type nq)) ∧
      (∀ nq, s.questions_sequence.get? (s.current_question_index + 1) = some nq →
        (nq = "" ∨ nq = "goodbye") →
        (handle_recording_completion env (some s) p).2
          = xmlResponse (goodbyeBody p.skill_type)) := by
  have hsave : recordingSavedState env s p
      = { s with responses := dictInsert s.responses p.question (ResponseEntry.mk p.recording_url env.now) } := by
    unfold recordingSavedState
    simp [hu, hq]
  have hAidx : (recordingAdvanceState env s p).current_question_index
      = s.current_question_index + 1 := by
    unfold recordingAdvanceState
    rw [hsave]
    rfl
  have hAresp : (recordingAdvanceState env s p).responses
      = dictInsert s.responses p.question (ResponseEntry.mk p.recording_url env.now) := by
    unfold recordingAdvanceState
    rw [hsave]
    rfl
  have hAq : get_current_question (recordingAdvanceState env s p)
      = s.questions_sequence.get? (s.current_question_index + 1) := by
    unfold recordingAdvanceState get_current_question
    rw [hsave]
    rfl
  rw [recording_advance_eq env s p hp he hd ht, hAq]
  cases hcase : s.questions_sequence.get? (s.current_question_index + 1) with
  | none =>
    obtain ⟨s2, h1, h2, h3⟩ :=
      completion_store_char env (recordingAdvanceState env s p) p.assessment_id p.skill_type
    refine ⟨s2, h1, h2.trans hAidx, h3.trans hAresp, ?_, ?_, ?_⟩
    · intro _
      exact completion_resp env (some (recordingAdvanceState env s p))
        p.assessment_id p.skill_type htw
    · intro nq hnq
      exact absurd hnq (by simp)
    · intro nq hnq
      exact absurd hnq (by simp)
  | some nq =>
    rw [hcase] at hni
    have hnqi : nq ≠ "intro" := fun h => hni (by rw [h])
    by_cases hnq0 : nq = ""
    · rw [genQ_some_completion env (some (recordingAdvanceState env s p))
        p.assessment_id p.skill_type nq (recordingAdvanceState env s p) (Or.inl hnq0)]
      obtain ⟨s2, h1, h2, h3⟩ :=
        completion_store_char env (recordingAdvanceState env s p) p.assessment_id p.skill_type
      refine ⟨s2, h1, h2.trans hAidx, h3.trans hAresp, ?_, ?_, ?_⟩
      · intro hno
        exact absurd hno (by simp)
      · intro nq2 hnq2 hne0 _
        rw [← Option.some.inj hnq2] at hne0
        exact absurd hnq0 hne0
      · intro nq2 _ _
        exact completion_resp env (some (recordingAdvanceState env s p))
          p.assessment_id p.skill_type htw
    · by_cases hnqg : nq = "goodbye"
      · rw [genQ_some_completion env (some (recordingAdvanceState env s p))
          p.assessment_id p.skill_type nq (recordingAdvanceState env s p)
          (Or.inr ⟨htw, hnqi, hnqg⟩)]
        obtain ⟨s2, h1, h2, h3⟩ :=
          completion_store_char env (recordingAdvanceState env s p) p.assessment_id p.skill_type
        refine ⟨s2, h1, h2.trans hAidx, h3.trans hAresp, ?_, ?_, ?_⟩
        · intro hno
          exact absurd hno (by simp)
        · intro nq2 hnq2 _ hneg
          rw [← Option.some.inj hnq2] at hneg
          exact absurd hnqg hneg
        · intro nq2 _ _
          exact completion_resp env (some (recordingAdvanceState env s p))
            p.assessment_id p.skill_type htw
      · rw [genQ_some_regular env (some (recordingAdvanceState env s p))
          p.assessment_id p.skill_type nq (recordingAdvanceState env s p)
          hnq0 htw hnqi hnqg]
        refine ⟨recordingAdvanceState env s p, rfl, hAidx, hAresp, ?_, ?_, ?_⟩
        · intro hno
          exact absurd hno (by simp)
        · intro nq2 hnq2 _ _
          rw [← Option.some.inj hnq2]
        · intro nq2 hnq2 hor
          rw [← Option.some.inj hnq2] at hor
          rcases hor with h | h
          · exact absurd h hnq0
          · exact absurd h hnqg

/-- Witness for `c6_advance_and_next_directive`: a normal answer to
question index 1 of the bartender session advances to index 2 and returns
the directive for `experience_2`. -/
theorem c6_witness :
    templateExistsW cxRecordingCb.skill_type = true ∧
    cxState.questions_sequence.get? (cxState.current_question_index + 1)
      = some "experience_2" ∧
    (∃ s2, (handle_recording_completion cxEnv (some cxState) cxRecordingCb).1 = some s2 ∧
      s2.current_question_index = cxState.current_question_index + 1 ∧
      s2.responses = dictInsert cxState.responses cxRecordingCb.question
        (ResponseEntry.mk cxRecordingCb.recording_url cxEnv.now) ∧
      (cxState.questions_sequence.get? (cxState.current_question_index + 1) = none →
        (handle_recording_completion cxEnv (some cxState) cxRecordingCb).2
          = xmlResponse (goodbyeBody cxRecordingCb.skill_type)) ∧
      (∀ nq, cxState.questions_sequence.get? (cxState.current_question_index + 1) = some nq →
        nq ≠ "" → nq ≠ "goodbye" →
        (handle_recording_completion cxEnv (some cxState) cxRecordingCb).2
          = xmlResponse (regularBody cxRecordingCb.assessment_id cxRecordingCb.skill_type nq)) ∧
      (∀ nq, cxState.questions_sequence.get? (cxState.current_question_index + 1) = some nq →
        (nq = "" ∨ nq = "goodbye") →
        (handle_recording_completion cxEnv (some cxState) cxRecordingCb).2
          = xmlResponse (goodbyeBody cxRecordingCb.skill_type))) :=
  ⟨rfl, rfl,
    c6_advance_and_next_directive cxEnv cxState cxRecordingCb rfl rfl
      (by decide) (by decide) (by decide) (by decide) rfl (by decide)⟩

/-- Everything built through the shared frame is well-formed markup. -/
theorem wf_twimlWrap (inner : String) : wellFormedTwiml (twimlWrap inner) :=
  ⟨inner, rfl⟩

/-- The completion handler always returns well-formed TwiML. -/
theorem completion_wf (env : WebhookEnv) (store : Option SessionState)
    (aid skill : String) :
    wellFormedTwiml (generate_completion_twiml env store aid skill).2.body := by
  show wellFormedTwiml
    (if templateExistsW skill then goodbyeBody skill else completionFallbackBody)
  by_cases h : templateExistsW skill
  · rw [if_pos h]
    exact wf_twimlWrap _
  · rw [if_neg h]
    exact wf_twimlWrap _

/-- The question generator always returns well-formed TwiML. -/
theorem genQ_wf (env : WebhookEnv) (store : Option SessionState)
    (aid skill : String) (qk : Option String) (state : SessionState) :
    wellFormedTwiml (generate_question_twiml env store aid skill qk state).2.body := by
  cases qk with
  | none => exact completion_wf env store aid skill
  | some q =>
    simp only [generate_question_twiml]
    by_cases hq0 : q = ""
    · rw [if_pos hq0]
      exact completion_wf env store aid skill
    · rw [if_neg hq0]
      by_cases htw : templateExistsW skill
      · rw [if_pos htw]
        by_cases hqi : q = "intro"
        · rw [if_pos hqi]
          cases hnq : get_current_question (advance_to_next_question state) with
          | none => exact completion_wf env _ aid skill
          | some nq =>
            show wellFormedTwiml
              ((if nq = "" then
                  generate_completion_twiml env (some (advance_to_next_question state)) aid skill
                else (some (advance_to_next_question state),
                  xmlResponse (introBody aid skill nq))).2.body)
            by_cases hnq0 : nq = ""
            · rw [if_pos hnq0]
              exact completion_wf env _ aid skill
            · rw [if_neg hnq0]
              exact wf_twimlWrap _
        · rw [if_neg hqi]
          by_cases hqg : q = "goodbye"
          · rw [if_pos hqg]
            exact completion_wf env store aid skill
          · rw [if_neg hqg]
            exact wf_twimlWrap _
      · rw [if_neg htw]
        exact wf_twimlWrap _

/-- A successful recording-handler body only ever emits TwiML built
through the shared frame. -/
theorem recordingBody_ok_wf (env : WebhookEnv) (store : Option SessionState)
    (p : RecordingParams) (r : Option SessionState × HttpResponse)
    (h : recordingBody env store p = .ok r) :
    wellFormedTwiml r.2.body := by
  unfold recordingBody at h
  by_cases hp : p.parseErr
  · rw [if_pos hp] at h
    exact Except.noConfusion h
  · rw [if_neg hp] at h
    simp only [exceptBind_ok] at h
    obtain ⟨⟨state, store1⟩, hg, h⟩ := h
    by_cases hd : p.digits = "*"
    · rw [if_pos hd] at h
      simp only [pure, Except.pure, Except.ok.injEq] at h
      rw [← h]
      exact genQ_wf env store1 p.assessment_id p.skill_type (some p.question) state
    · rw [if_neg hd] at h
      by_cases htm : (decide (pyParseIntOr0 p.recording_duration = 5)
          && decide (p.digits = "")) = true
      · rw [if_pos htm] at h
        simp only [pure, Except.pure, Except.ok.injEq] at h
        rw [← h]
        exact wf_twimlWrap _
      · rw [if_neg htm] at h
        simp only [pure, Except.pure, Except.ok.injEq] at h
        rw [← h]
        exact genQ_wf env _ p.assessment_id p.skill_type _ _

/-- Claim C10.  On every execution path of the three call-flow webhook
handlers — initial webhook, recording completion, gather — including the
paths where an internal exception is raised (a failing state read, an
unparseable callback body) and caught by the handler, the response body
delivered to the telephony provider is well-formed TwiML markup: the
fixed XML declaration and a complete `<Response>` element, never a raw
fault or a non-markup error body. -/
theorem c10_always_wellformed_twiml (env : WebhookEnv) (store : Option SessionState)
    (ev : CallbackEvent) :
    wellFormedTwiml ((applyCallback env store ev).2.body) := by
  cases ev with
  | initialContact aid skill =>
    show wellFormedTwiml ((handle_initial_webhook env store aid skill).2.body)
    unfold handle_initial_webhook
    by_cases ha : aid = ""
    · rw [if_pos ha]
      exact wf_twimlWrap _
    · rw [if_neg ha]
      cases hg : get_assessment_state env store aid skill with
      | error e => exact wf_twimlWrap _
      | ok pair => exact genQ_wf env pair.2 aid skill (get_current_question pair.1) pair.1
  | recording p =>
    show wellFormedTwiml ((handle_recording_completion env store p).2.body)
    unfold handle_recording_completion
    cases hb : recordingBody env store p with
    | error e => exact wf_twimlWrap _
    | ok r => exact recordingBody_ok_wf env store p r hb
  | gather p =>
    show wellFormedTwiml ((handle_gather_response store p).2.body)
    unfold handle_gather_response
    by_cases hp : p.parseErr
    · rw [if_pos hp]
      exact wf_twimlWrap _
    · rw [if_neg hp]
      cases p.rawBody with
      | none => exact wf_twimlWrap _
      | some b =>
        show wellFormedTwiml
          ((if b ≠ "" then
              (if p.digits = "*" then
                (store, xmlResponse (repeatBody p.assessment_id p.skill_type p.question))
              else (store, xmlResponse (gatherContinueBody p.assessment_id p.skill_type p.question)))
            else (store,
              xmlResponse (gatherContinueBody p.assessment_id p.skill_type p.question))).2.body)
        by_cases hb : b ≠ ""
        · rw [if_pos hb]
          by_cases hd : p.digits = "*"
          · rw [if_pos hd]
            exact wf_twimlWrap _
          · rw [if_neg hd]
            exact wf_twimlWrap _
        · rw [if_neg hb]
          exact wf_twimlWrap _
